import Mathlib

/-!
Verification development for the macOS app build tool
(src/macos-app/build_tool/src/main.rs).

The program is shallowly embedded as pure Lean functions.  Modelling
conventions, used consistently below:

* A filesystem path is a list of components (`Path`).
* The filesystem is modelled as a read-only snapshot (`FS`) taken at the
  start of a run; every mutation the program performs is recorded in an
  effect trace (`Eff`) instead of being applied.  Consequences of external
  processes on the filesystem (npm, uv, swift, rsync, sips, iconutil)
  are outside the model: reads that happen after an external command ran
  consult the same snapshot.
* External commands are opaque: a `World` oracle answers which commands
  exist on PATH, whether a synchronous command exits successfully,
  whether a spawn succeeds, what exit status a spawned child eventually
  reports, and how a PNG file decodes.
* Machine integers of the pixel code (u8/u16/u32) are modelled as `Nat`
  with explicit truncation (`% 256`, `% 65536`, `% 4294967296`) at casts
  and at operations where the source operates at that width.
* Fallible code returns `Except BuildErr`; process-level logging (println,
  ANSI colors, verbose output) is not modelled, since no claim concerns it.
-/

set_option maxRecDepth 4000

namespace BuildTool

/-- A filesystem path, as a list of components. -/
abbrev Path := List String

/-- Rendering of a path as a string (models PathBuf display / to_string_lossy). -/
def pathStr (p : Path) : String := String.intercalate "/" p

/-- Decidable substring test on the underlying character lists. -/
def strContainsAux : List Char → List Char → Bool
  | [], needle => needle.isEmpty
  | c :: t, needle => needle.isPrefixOf (c :: t) || strContainsAux t needle

/-- Whether the string needle occurs contiguously inside hay. -/
def strContains (hay needle : String) : Bool :=
  strContainsAux hay.toList needle.toList

/-- Read-only snapshot of the filesystem at the start of a run.
mtime is the modification time (seconds); size the file length in bytes;
filesUnder lists every regular file anywhere under a directory subtree
(the result of the explicit-stack walk in dir_has_newer_than). -/
structure FS where
  isFile : Path → Bool
  isDir : Path → Bool
  mtime : Path → Nat
  content : Path → String
  size : Path → Nat
  filesUnder : Path → List Path

/-- A decoded RGBA8 image: the result of load_png_rgba8.  pixels is the
row-major RGBA byte stream (4 bytes per pixel). -/
structure RgbaImg where
  width : Nat
  height : Nat
  pixels : List Nat
  deriving DecidableEq

/-- Errors the build can abort with (the BoxError values of main.rs,
made structural). -/
inductive BuildErr where
  | missingCmd (cmd : String)
  | cmdFailed (program : String) (args : List String)
  | spawnInDryRun
  | spawnFailed (program : String)
  | taskFailed (name : String)
  | wrapperMissing
  | backendOutMissing
  | frontendDistMissing
  | pngLoadFailed (msg : String)
  | bgColorNotFound
  deriving DecidableEq

/-- Oracle for everything outside the program: PATH lookups, exit statuses
of synchronous commands, spawn launches, exit statuses of awaited children,
and PNG decoding. -/
structure World where
  hasCmd : String → Bool
  runOk : String → List String → Bool
  spawnOk : String → List String → Bool
  waitOk : String → List String → Bool
  loadPng : Path → Except String RgbaImg

/-- One observable action of the program.  runSync covers both runCmd and
the raw Command::status() invocations whose result the source ignores
(iconutil, the sips fallback, touch); spawn is a process launched without
waiting; wait is the coordinator blocking on a named task.  All other
constructors are filesystem mutations. -/
inductive Eff where
  | removeDirAll (p : Path)
  | createDirAll (p : Path)
  | writeFile (p : Path) (content : String)
  | removeFile (p : Path)
  | copyFile (src dest : Path)
  | setPerm (p : Path)
  | savePng (p : Path) (width height : Nat) (pixels : List Nat)
  | runSync (cwd : Option Path) (program : String) (args : List String)
      (envs : List (String × String))
  | spawn (cwd : Option Path) (program : String) (args : List String)
      (envs : List (String × String))
  | wait (name : String)
  deriving DecidableEq

/-- The external program an effect launches, if any. -/
def effProg : Eff → Option String
  | .runSync _ p _ _ => some p
  | .spawn _ p _ _ => some p
  | _ => none

/-- The path an effect writes file content to, if any (stamps and side
files are writeFile effects). -/
def effWritePath : Eff → Option Path
  | .writeFile p _ => some p
  | _ => none

/-- Paths written (with file content) by a trace. -/
def writePaths (tr : List Eff) : List Path := tr.filterMap effWritePath

/-- A live process handle: std::process::Child.  exitSuccess is the exit
status the child will report when waited on (determined by the external
world at spawn time in this model). -/
structure Child where
  program : String
  args : List String
  exitSuccess : Bool
  deriving DecidableEq

/-- The finalization payload of an asynchronous stage (enum TaskKind). -/
inductive TaskKind where
  | frontendBuild (env_file : Path) (stamp_file : Path) (env_content : String)
  | backendBuild (stamp_file : Path)
  | swiftBuild
  deriving DecidableEq

/-- A registered asynchronous stage (struct Task). -/
structure Task where
  name : String
  child : Child
  kind : TaskKind
  deriving DecidableEq

/-- The resolved configuration (struct Config). -/
structure Config where
  app_name : String
  bundle_id : String
  app_version : String
  build_number : String
  clean : Bool
  force_frontend : Bool
  force_backend : Bool
  force_swift : Bool
  skip_frontend : Bool
  skip_backend : Bool
  skip_swift : Bool
  dev_mode : Bool
  verbose : Bool
  dry_run : Bool
  codesign_identity : String
  deriving DecidableEq

/-- Decidable equality on Except values, used to evaluate the model at
concrete inputs. -/
instance {ε α : Type} [DecidableEq ε] [DecidableEq α] : DecidableEq (Except ε α) :=
  fun x y =>
    match x, y with
    | .ok a, .ok b =>
        if h : a = b then isTrue (by rw [h])
        else isFalse (by intro hh; cases hh; exact h rfl)
    | .error a, .error b =>
        if h : a = b then isTrue (by rw [h])
        else isFalse (by intro hh; cases hh; exact h rfl)
    | .ok _, .error _ => isFalse (by intro hh; cases hh)
    | .error _, .ok _ => isFalse (by intro hh; cases hh)

/-- A computation that records an effect trace and may fail: the shape of
every fallible step of the pipeline. -/
abbrev M (α : Type) : Type := List Eff × Except BuildErr α

/-- Pure result with no effects. -/
def ret {α : Type} (a : α) : M α := ([], .ok a)

/-- Failure with no effects. -/
def failM {α : Type} (e : BuildErr) : M α := ([], .error e)

/-- Record effects and succeed. -/
def emit (effs : List Eff) : M Unit := (effs, .ok ())

/-- Sequencing: on failure the computation stops (the ? operator); on
success the traces concatenate in order. -/
def seq {α β : Type} (x : M α) (f : α → M β) : M β :=
  match x.2 with
  | .error e => (x.1, .error e)
  | .ok a => (x.1 ++ (f a).1, (f a).2)

/-- Model of runCmd: in dry-run mode only prints (no effect, always Ok);
otherwise runs the command synchronously and fails on non-zero exit. -/
def runCmd (cfg : Config) (w : World) (cwd : Option Path) (program : String)
    (args : List String) (envs : List (String × String)) : M Unit :=
  if cfg.dry_run then ret ()
  else ([Eff.runSync cwd program args envs],
        if w.runOk program args then .ok () else .error (.cmdFailed program args))

/-- Model of spawn_cmd_with_env: calling it in dry-run mode is an error
(no process is launched); otherwise the child is spawned without waiting. -/
def spawn_cmd_with_env (cfg : Config) (w : World) (cwd : Option Path)
    (program : String) (args : List String) (envs : List (String × String)) : M Child :=
  if cfg.dry_run then failM .spawnInDryRun
  else ([Eff.spawn cwd program args envs],
        if w.spawnOk program args then
          .ok { program := program, args := args, exitSuccess := w.waitOk program args }
        else .error (.spawnFailed program))

/-- Model of spawn_cmd (a thin wrapper over spawn_cmd_with_env). -/
def spawn_cmd (cfg : Config) (w : World) (cwd : Option Path) (program : String)
    (args : List String) (envs : List (String × String)) : M Child :=
  spawn_cmd_with_env cfg w cwd program args envs

/-- Model of write_stamp: a no-op under dry-run, otherwise creates the
stamp's parent directory and writes the current Unix time. -/
def write_stamp (cfg : Config) (now : Nat) (stamp : Path) : List Eff :=
  if cfg.dry_run then []
  else (if stamp.isEmpty then [] else [Eff.createDirAll stamp.dropLast]) ++
       [Eff.writeFile stamp (toString now ++ "\n")]

/-- Model of file_newer_than: a missing file is never newer; a missing
stamp makes everything newer; otherwise strict comparison of mtimes. -/
def file_newer_than (fs : FS) (file stamp : Path) : Bool :=
  if !fs.isFile file then false
  else if !fs.isFile stamp then true
  else decide (fs.mtime stamp < fs.mtime file)

/-- Model of dir_has_newer_than: a missing directory contributes nothing;
a missing stamp is always stale; otherwise some file in the subtree has a
strictly newer mtime. -/
def dir_has_newer_than (fs : FS) (dir stamp : Path) : Bool :=
  if !fs.isDir dir then false
  else if !fs.isFile stamp then true
  else (fs.filesUnder dir).any fun f => decide (fs.mtime stamp < fs.mtime f)

/-- The need_npm_install decision computed inline in build (step 1). -/
def need_npm_install (fs : FS) (webapp_dir deps_stamp : Path)
    (lock_file : Option Path) : Bool :=
  (!fs.isDir (webapp_dir ++ ["node_modules"])) ||
  (!fs.isFile deps_stamp) ||
  file_newer_than fs (webapp_dir ++ ["package.json"]) deps_stamp ||
  (match lock_file with
   | some lock => file_newer_than fs lock deps_stamp
   | none => false)

/-- The vite config filenames probed by compute_need_webapp_build. -/
def vite_config_candidates (webapp_dir : Path) : List Path :=
  [webapp_dir ++ ["vite.config.ts"], webapp_dir ++ ["vite.config.js"],
   webapp_dir ++ ["vite.config.mts"], webapp_dir ++ ["vite.config.mjs"]]

/-- Model of compute_need_webapp_build (the frontend staleness oracle). -/
def compute_need_webapp_build (fs : FS) (webapp_dir build_stamp build_env_file : Path)
    (build_env_content : String) (lock_file : Option Path) : Bool :=
  if !fs.isDir (webapp_dir ++ ["dist"]) then true
  else if !fs.isFile build_stamp then true
  else if !fs.isFile build_env_file then true
  else if fs.content build_env_file != build_env_content then true
  else if file_newer_than fs (webapp_dir ++ ["package.json"]) build_stamp then true
  else if (match lock_file with
           | some lock => file_newer_than fs lock build_stamp
           | none => false) then true
  else if file_newer_than fs (webapp_dir ++ ["index.html"]) build_stamp then true
  else if dir_has_newer_than fs (webapp_dir ++ ["src"]) build_stamp then true
  else if dir_has_newer_than fs (webapp_dir ++ ["public"]) build_stamp then true
  else (vite_config_candidates webapp_dir).any fun p =>
         fs.isFile p && file_newer_than fs p build_stamp

/-- The need_uv_sync decision computed inline in build (step 2). -/
def need_uv_sync (fs : FS) (backend_dir deps_stamp backend_lock_file : Path) : Bool :=
  (!fs.isDir (backend_dir ++ [".venv"])) ||
  (!fs.isFile deps_stamp) ||
  file_newer_than fs (backend_dir ++ ["pyproject.toml"]) deps_stamp ||
  (fs.isFile backend_lock_file && file_newer_than fs backend_lock_file deps_stamp)

/-- Model of compute_need_backend_pyinstaller (the backend staleness oracle). -/
def compute_need_backend_pyinstaller (fs : FS)
    (backend_dir backend_product_dir build_stamp deps_stamp : Path) : Bool :=
  if !fs.isDir backend_product_dir then true
  else if !fs.isFile build_stamp then true
  else if fs.isFile deps_stamp && decide (fs.mtime build_stamp < fs.mtime deps_stamp) then true
  else if file_newer_than fs (backend_dir ++ ["macapp_entry.py"]) build_stamp then true
  else dir_has_newer_than fs (backend_dir ++ ["app"]) build_stamp

/-- Finalization of a confirmed-successful task: the side files are written
first, then the stamp (the match in the wait loop of build). -/
def finalizeEffects (cfg : Config) (now : Nat) : TaskKind → List Eff
  | .frontendBuild env_file stamp_file env_content =>
      Eff.writeFile env_file env_content :: write_stamp cfg now stamp_file
  | .backendBuild stamp_file => write_stamp cfg now stamp_file
  | .swiftBuild => []

/-- The wait loop of build: tasks are waited on in registration order; a
non-zero exit aborts immediately (remaining tasks are neither waited on
nor cancelled - the effect vocabulary has no cancellation action, exactly
like the source); a successful task is finalized before the next wait. -/
def waitTasks (cfg : Config) (now : Nat) : List Task → M Unit
  | [] => ret ()
  | t :: rest =>
      if t.child.exitSuccess then
        (Eff.wait t.name ::
          (finalizeEffects cfg now t.kind ++ (waitTasks cfg now rest).1),
         (waitTasks cfg now rest).2)
      else ([Eff.wait t.name], .error (.taskFailed t.name))

/-- The file-content write paths of a task's finalization (its side files
and its stamp). -/
def finalizeWritePaths (cfg : Config) (now : Nat) (k : TaskKind) : List Path :=
  writePaths (finalizeEffects cfg now k)

/-- Model of the codesign gate's emptiness test on the trimmed identity:
trim().is_empty() holds exactly when every character is whitespace. -/
def blank_after_trim (s : String) : Bool :=
  s.toList.all fun c => c.isWhitespace

/-- Model of copy_executable: create the parent, copy, set mode 0755. -/
def copy_executable (src dest : Path) : List Eff :=
  (if dest.isEmpty then [] else [Eff.createDirAll dest.dropLast]) ++
  [Eff.copyFile src dest, Eff.setPerm dest]

/-- The optional icon-reference fragment of the Info.plist template. -/
def info_plist_icon_key (has_icon : Bool) : String :=
  if has_icon then "  <key>CFBundleIconFile</key>\n  <string>appicon</string>\n"
  else ""

/-- The exact Info.plist text produced by write_info_plist. -/
def info_plist_content (cfg : Config) (has_icon : Bool) : String :=
  "<?xml version=\"1.0\" encoding=\"UTF-8\"?>\n" ++
  "<!DOCTYPE plist PUBLIC \"-//Apple//DTD PLIST 1.0//EN\" \"http://www.apple.com/DTDs/PropertyList-1.0.dtd\">\n" ++
  "<plist version=\"1.0\">\n" ++
  "<dict>\n" ++
  "  <key>CFBundleName</key>\n  <string>" ++ cfg.app_name ++ "</string>\n" ++
  "  <key>CFBundleDisplayName</key>\n  <string>" ++ cfg.app_name ++ "</string>\n" ++
  "  <key>CFBundleIdentifier</key>\n  <string>" ++ cfg.bundle_id ++ "</string>\n" ++
  "  <key>CFBundleExecutable</key>\n  <string>" ++ cfg.app_name ++ "</string>\n" ++
  "  <key>CFBundlePackageType</key>\n  <string>APPL</string>\n" ++
  "  <key>CFBundleShortVersionString</key>\n  <string>" ++ cfg.app_version ++ "</string>\n" ++
  "  <key>CFBundleVersion</key>\n  <string>" ++ cfg.build_number ++ "</string>\n" ++
  info_plist_icon_key has_icon ++ "\n" ++
  "  <key>NSPrincipalClass</key>\n  <string>NSApplication</string>\n" ++
  "  <key>NSHighResolutionCapable</key>\n  <true/>\n" ++
  "\n" ++
  "  <key>NSAppTransportSecurity</key>\n  <dict>\n" ++
  "    <key>NSAllowsLocalNetworking</key>\n    <true/>\n" ++
  "  </dict>\n" ++
  "</dict>\n" ++
  "</plist>\n"

/-- Model of write_info_plist: one file write of the rendered template. -/
def write_info_plist (cfg : Config) (app_bundle : Path) (has_icon : Bool) : List Eff :=
  [Eff.writeFile (app_bundle ++ ["Contents", "Info.plist"])
    (info_plist_content cfg has_icon)]

/-- Model of write_pkg_info: Contents/PkgInfo gets the fixed constant
byte string APPL???? (type code plus creator code). -/
def write_pkg_info (app_bundle : Path) : List Eff :=
  [Eff.writeFile (app_bundle ++ ["Contents", "PkgInfo"]) "APPL????"]

/-- Model of get_px: read the RGBA quadruple at pixel (x, y).  Out-of-range
indexing (a panic in the source) is modelled as 0. -/
def get_px (rgba : List Nat) (width x y : Nat) : Nat × Nat × Nat × Nat :=
  (rgba.getD ((y * width + x) * 4) 0,
   rgba.getD ((y * width + x) * 4 + 1) 0,
   rgba.getD ((y * width + x) * 4 + 2) 0,
   rgba.getD ((y * width + x) * 4 + 3) 0)

/-- The scan loop of find_bg_color, with explicit fuel.  The source loops
while 0 <= y < height stepping by plus or minus 1, so it makes at most
height probes before leaving the range; fuel of height + 1 is enough and
the fuel-exhausted branch is unreachable for the call sites below. -/
def find_bg_color_loop (rgba : List Nat) (width height x : Nat) (step : Int) :
    Nat → Int → Except BuildErr (Nat × Nat × Nat)
  | 0, _ => .error .bgColorNotFound
  | fuel + 1, y =>
      if 0 ≤ y ∧ y < (height : Int) then
        match get_px rgba width x y.toNat with
        | (r, g, b, a) =>
          if a > 0 && !(r > 240 && g > 240 && b > 240) then .ok (r, g, b)
          else find_bg_color_loop rgba width height x step fuel (y + step)
      else .error .bgColorNotFound

/-- Model of find_bg_color: walk vertically from start_y looking for the
first pixel that is not transparent and not near-white; failing to find
one is an error (which the caller propagates, aborting the run). -/
def find_bg_color (rgba : List Nat) (width height x start_y : Nat) (step : Int) :
    Except BuildErr (Nat × Nat × Nat) :=
  find_bg_color_loop rgba width height x step (height + 1) (start_y : Int)

/-- Model of gradient_color: linear interpolation between the top and
bottom background colors, in u32 arithmetic with a final cast to u8.
The u32 subtraction denom - y is modelled as Nat subtraction (the call
sites keep y below height, so it never underflows). -/
def gradient_color (top bottom : Nat × Nat × Nat) (y height : Nat) : Nat × Nat × Nat :=
  if height ≤ 1 then top
  else
    let denom := (height - 1) % 4294967296
    let y32 := y % 4294967296
    let inv := denom - y32
    let lerp := fun (a b : Nat) =>
      let v := (a * inv % 4294967296 + b * y32 % 4294967296) % 4294967296
      ((v + denom / 2) % 4294967296) / denom % 256
    (lerp top.1 bottom.1, lerp top.2.1 bottom.2.1, lerp top.2.2 bottom.2.2)

/-- Alpha-blending of one channel against the gradient background, in u16
arithmetic with a final cast to u8 (the partial-alpha arm of the pixel
loop in flatten_icon_to_opaque_png). -/
def blend_channel (c bgc a : Nat) : Nat :=
  ((c * (a % 65536) % 65536 + bgc * ((255 - a % 65536) % 65536) % 65536) % 65536
    + 127) % 65536 / 255 % 256

/-- One output pixel of the flattening loop: opaque pixels pass through,
fully transparent pixels become the background, partial alpha blends. -/
def flatten_pixel (img : RgbaImg) (bg : Nat × Nat × Nat) (x y : Nat) : List Nat :=
  match get_px img.pixels img.width x y with
  | (r, g, b, a) =>
    if a = 255 then [r, g, b, 255]
    else if a = 0 then [bg.1, bg.2.1, bg.2.2, 255]
    else [blend_channel r bg.1 a, blend_channel g bg.2.1 a, blend_channel b bg.2.2 a, 255]

/-- The full output byte stream of the flattening loop, row-major. -/
def flatten_pixels (img : RgbaImg) (top bottom : Nat × Nat × Nat) : List Nat :=
  ((List.range img.height).map fun y =>
    (((List.range img.width).map fun x =>
        flatten_pixel img (gradient_color top bottom y img.height) x y).flatten)).flatten

/-- Model of flatten_icon_to_opaque_png: decode the input (via the world
oracle), sample the background gradient at the top and bottom edges, blend
every pixel opaque, and save.  A decode failure or a failed background
search is an error - the callers propagate it. -/
def flatten_icon_to_opaque_png (w : World) (input output : Path) : M Unit :=
  match w.loadPng input with
  | .error msg => failM (.pngLoadFailed msg)
  | .ok img =>
    match find_bg_color img.pixels img.width img.height (img.width / 2) 0 1 with
    | .error e => failM e
    | .ok top =>
      match find_bg_color img.pixels img.width img.height (img.width / 2)
              (img.height - 1) (-1) with
      | .error e => failM e
      | .ok bottom =>
        ((if output.isEmpty then [] else [Eff.createDirAll output.dropLast]) ++
         [Eff.savePng output img.width img.height (flatten_pixels img top bottom)],
         .ok ())

/-- The ten iconset sizes generated by build_app_icon. -/
def icon_sizes : List (Nat × String) :=
  [(16, "icon_16x16.png"), (32, "icon_16x16@2x.png"), (32, "icon_32x32.png"),
   (64, "icon_32x32@2x.png"), (128, "icon_128x128.png"), (256, "icon_128x128@2x.png"),
   (256, "icon_256x256.png"), (512, "icon_256x256@2x.png"), (512, "icon_512x512.png"),
   (1024, "icon_512x512@2x.png")]

/-- The resize loop of build_app_icon: one synchronous sips call per size,
each one fatal on failure (the source uses the ? operator here). -/
def sips_resize_calls (cfg : Config) (w : World) (src icon_work : Path) :
    List (Nat × String) → M Unit
  | [] => ret ()
  | (size, name) :: rest =>
      seq (runCmd cfg w none "sips"
            ["-z", toString size, toString size, pathStr src, "--out",
             pathStr (icon_work ++ [name])] [])
        fun _ => sips_resize_calls cfg w src icon_work rest

/-- The source-file probe of build_app_icon: the first existing candidate. -/
def first_icon_candidate (fs : FS) (icon_source : Path) : Option Path :=
  [icon_source ++ ["favicon-512.png"], icon_source ++ ["apple-touch-icon.png"],
   icon_source ++ ["favicon-256.png"]].find? fs.isFile

/-- Model of build_app_icon.  A missing source directory or missing source
file returns Ok false (warn and continue); flattening and each sips resize
propagate their errors; the icns conversions (iconutil then a sips
fallback) have their exit status ignored and only the resulting file's
existence decides has_icon. -/
def build_app_icon (cfg : Config) (w : World) (fs : FS)
    (root work_dir app_bundle : Path) : M Bool :=
  if !fs.isDir (root ++ ["webapp", "public", "favicon"]) then ret false
  else
    match first_icon_candidate fs (root ++ ["webapp", "public", "favicon"]) with
    | none => ret false
    | some icon_src_file =>
      seq (flatten_icon_to_opaque_png w icon_src_file
            (work_dir ++ ["appicon_source_macos.png"])) fun _ =>
      seq (emit [Eff.removeDirAll (work_dir ++ ["appicon.iconset"]),
                 Eff.createDirAll (work_dir ++ ["appicon.iconset"])]) fun _ =>
      seq (sips_resize_calls cfg w (work_dir ++ ["appicon_source_macos.png"])
            (work_dir ++ ["appicon.iconset"]) icon_sizes) fun _ =>
      seq (emit [Eff.removeFile
            (app_bundle ++ ["Contents", "Resources", "appicon.icns"])]) fun _ =>
      seq (emit (if w.hasCmd "iconutil" then
                   [Eff.runSync none "iconutil"
                     ["-c", "icns", pathStr (work_dir ++ ["appicon.iconset"]), "-o",
                      pathStr (app_bundle ++ ["Contents", "Resources", "appicon.icns"])] []]
                 else [])) fun _ =>
      if fs.isFile (app_bundle ++ ["Contents", "Resources", "appicon.icns"]) &&
         decide (0 < fs.size (app_bundle ++ ["Contents", "Resources", "appicon.icns"])) then
        ret true
      else
        seq (emit [Eff.runSync none "sips"
              ["-s", "format", "icns", pathStr (work_dir ++ ["appicon_source_macos.png"]),
               "--out",
               pathStr (app_bundle ++ ["Contents", "Resources", "appicon.icns"])] []]) fun _ =>
        ret (fs.isFile (app_bundle ++ ["Contents", "Resources", "appicon.icns"]) &&
             decide (0 < fs.size (app_bundle ++ ["Contents", "Resources", "appicon.icns"])))

/-- Model of require_cmd: fail fast when a required tool is not on PATH. -/
def require_cmd (w : World) (cmd : String) : M Unit :=
  if w.hasCmd cmd then ret () else failM (.missingCmd cmd)

/-- The toolchain check at the top of build (warn_if_missing performs no
action in the model, since it only logs). -/
def requireToolchain (w : World) : M Unit :=
  seq (require_cmd w "npm") fun _ =>
  seq (require_cmd w "node") fun _ =>
  seq (require_cmd w "uv") fun _ =>
  seq (require_cmd w "swift") fun _ =>
  seq (require_cmd w "xcrun") fun _ =>
  require_cmd w "rsync"

/-- Step 1 of build: frontend dependency installation, gated on
need_npm_install or the force flag, with a stamp written on success. -/
def frontendDepsStep (cfg : Config) (w : World) (fs : FS) (now : Nat)
    (webapp_dir webapp_deps_stamp : Path) (lock_file : Option Path) : M Unit :=
  if cfg.skip_frontend then ret ()
  else if need_npm_install fs webapp_dir webapp_deps_stamp lock_file
          || cfg.force_frontend then
    seq (runCmd cfg w (some webapp_dir) "npm"
          (match lock_file with
           | some _ => ["ci", "--no-audit", "--fund=false"]
           | none => ["install", "--no-audit", "--fund=false"]) [])
      fun _ => emit (write_stamp cfg now webapp_deps_stamp)
  else ret ()

/-- Step 1b of build: the frontend vite build.  In dry-run mode the command
goes through the synchronous printer; otherwise it is spawned and a Task
carrying the finalization payload is registered. -/
def frontendBuildStep (cfg : Config) (w : World) (fs : FS)
    (webapp_dir webapp_build_stamp webapp_build_env_file : Path)
    (webapp_build_env_content : String) (lock_file : Option Path) : M (Option Task) :=
  if cfg.skip_frontend then ret none
  else if compute_need_webapp_build fs webapp_dir webapp_build_stamp
            webapp_build_env_file webapp_build_env_content lock_file
          || cfg.force_frontend then
    if cfg.dry_run then
      seq (runCmd cfg w (some webapp_dir) "npm" ["run", "build"]
            [("VITE_API_MODE", "real"), ("VITE_API_BASE_URL", "")])
        fun _ => ret none
    else
      seq (spawn_cmd cfg w (some webapp_dir) "npm" ["run", "build"]
            [("VITE_API_MODE", "real"), ("VITE_API_BASE_URL", "")])
        fun child => ret (some
          { name := "frontend build"
            child := child
            kind := .frontendBuild webapp_build_env_file webapp_build_stamp
              webapp_build_env_content })
  else ret none

/-- Step 2 of build: backend dependency sync via uv, gated on need_uv_sync
or the force flag, with a stamp written on success. -/
def backendDepsStep (cfg : Config) (w : World) (fs : FS) (now : Nat)
    (backend_dir backend_deps_stamp backend_lock_file : Path) : M Unit :=
  if cfg.skip_backend then ret ()
  else if need_uv_sync fs backend_dir backend_deps_stamp backend_lock_file
          || cfg.force_backend then
    seq (runCmd cfg w (some backend_dir) "uv"
          (if fs.isFile backend_lock_file then ["sync", "--frozen"] else ["sync"]) [])
      fun _ => emit (write_stamp cfg now backend_deps_stamp)
  else ret ()

/-- The PyInstaller command line assembled in step 2b of build. -/
def pyinstaller_args (backend_out work_dir : Path) : List String :=
  ["run", "--with", "pyinstaller", "--", "pyinstaller", "--noconfirm", "--noupx",
   "--log-level", "ERROR", "--name", "backend_server",
   "--distpath", pathStr backend_out,
   "--workpath", pathStr (work_dir ++ ["backend_work"]),
   "--specpath", pathStr (work_dir ++ ["backend_spec"]),
   "--collect-all", "uvicorn", "--collect-all", "fastapi", "--collect-all", "starlette",
   "--exclude-module", "tkinter", "--exclude-module", "matplotlib",
   "--exclude-module", "PyQt5", "--exclude-module", "PyQt6",
   "--exclude-module", "PySide2", "--exclude-module", "PySide6",
   "--exclude-module", "numpy.distutils", "--exclude-module", "setuptools",
   "--exclude-module", "distutils", "--exclude-module", "test",
   "--exclude-module", "unittest", "--exclude-module", "pytest",
   "macapp_entry.py"]

/-- Step 2b of build: the backend PyInstaller build, spawned asynchronously
outside dry-run mode. -/
def backendBuildStep (cfg : Config) (w : World) (fs : FS)
    (backend_dir backend_product_dir backend_build_stamp backend_deps_stamp
     backend_out work_dir : Path) : M (Option Task) :=
  if cfg.skip_backend then ret none
  else if compute_need_backend_pyinstaller fs backend_dir backend_product_dir
            backend_build_stamp backend_deps_stamp
          || cfg.force_backend then
    if cfg.dry_run then
      seq (runCmd cfg w (some backend_dir) "uv" (pyinstaller_args backend_out work_dir) [])
        fun _ => ret none
    else
      seq (spawn_cmd cfg w (some backend_dir) "uv" (pyinstaller_args backend_out work_dir) [])
        fun child => ret (some
          { name := "backend build"
            child := child
            kind := .backendBuild backend_build_stamp })
  else ret none

/-- Step 3 of build: the Swift wrapper build.  There is no staleness gate:
whenever the stage is not skipped the command runs (SwiftPM is left to be
incremental on its own; the force flag only changes logging). -/
def swiftStep (cfg : Config) (w : World) (wrapper_dir work_dir : Path) : M (Option Task) :=
  if cfg.skip_swift then ret none
  else
    seq (emit (if cfg.dry_run then []
               else [Eff.createDirAll (work_dir ++ ["swift_home"])])) fun _ =>
    if cfg.dry_run then
      seq (runCmd cfg w (some wrapper_dir) "swift" ["build", "-c", "release", "--disable-sandbox"]
            [("HOME", pathStr (work_dir ++ ["swift_home"]))])
        fun _ => ret none
    else
      seq (spawn_cmd_with_env cfg w (some wrapper_dir) "swift"
            ["build", "-c", "release", "--disable-sandbox"]
            [("HOME", pathStr (work_dir ++ ["swift_home"]))])
        fun child => ret (some { name := "swift build", child := child, kind := .swiftBuild })

/-- Steps 4 to 5 of build: bundle assembly (wrapper executable copy, the
two rsync mirrors, icon, Info.plist, PkgInfo, touch) and the optional
codesign invocation gated on a non-blank identity. -/
def assembleBundle (cfg : Config) (w : World) (fs : FS)
    (root work_dir app_bundle webapp_dir backend_product_dir wrapper_bin : Path) : M Unit :=
  seq (emit [Eff.createDirAll (app_bundle ++ ["Contents", "MacOS"]),
             Eff.createDirAll (app_bundle ++ ["Contents", "Resources"])]) fun _ =>
  seq (emit (copy_executable wrapper_bin
        (app_bundle ++ ["Contents", "MacOS", cfg.app_name]))) fun _ =>
  if !fs.isDir backend_product_dir then failM .backendOutMissing
  else
    seq (emit [Eff.createDirAll
          (app_bundle ++ ["Contents", "Resources", "backend_server"])]) fun _ =>
    seq (runCmd cfg w none "rsync"
          ["-a", "--delete", pathStr backend_product_dir ++ "/",
           pathStr (app_bundle ++ ["Contents", "Resources", "backend_server"]) ++ "/"] [])
      fun _ =>
    if !fs.isDir (webapp_dir ++ ["dist"]) then failM .frontendDistMissing
    else
      seq (emit [Eff.createDirAll
            (app_bundle ++ ["Contents", "Resources", "backend_server", "webapp_dist"])]) fun _ =>
      seq (runCmd cfg w none "rsync"
            ["-a", "--delete", pathStr (webapp_dir ++ ["dist"]) ++ "/",
             pathStr (app_bundle ++ ["Contents", "Resources", "backend_server", "webapp_dist"])
               ++ "/"] []) fun _ =>
      seq (build_app_icon cfg w fs root work_dir app_bundle) fun has_icon =>
      seq (emit (write_info_plist cfg app_bundle has_icon)) fun _ =>
      seq (emit (write_pkg_info app_bundle)) fun _ =>
      seq (emit [Eff.runSync none "touch" [pathStr app_bundle] []]) fun _ =>
      if !(blank_after_trim cfg.codesign_identity) then
        runCmd cfg w none "codesign"
          ["--force", "--deep", "--options", "runtime", "--sign",
           cfg.codesign_identity, pathStr app_bundle] []
      else ret ()

/-- Model of build: toolchain check, optional clean, working-directory
setup (skipped under dry-run), the five stage steps in source order with
async tasks collected in registration order, the dry-run early return,
the wait loop, the wrapper-binary check, and bundle assembly. -/
def build (cfg : Config) (w : World) (fs : FS) (now : Nat) (root : Path) : M Unit :=
  seq (requireToolchain w) fun _ =>
  seq (emit (if cfg.clean then
               (if cfg.dry_run then []
                else [Eff.removeDirAll (root ++ [".mac_build"]),
                      Eff.removeDirAll (root ++ ["dist", cfg.app_name ++ ".app"])])
             else [])) fun _ =>
  seq (emit (if !cfg.dry_run then
               [Eff.createDirAll (root ++ ["dist"]),
                Eff.createDirAll (root ++ [".mac_build"]),
                Eff.createDirAll (root ++ [".mac_build", "stamps"]),
                Eff.createDirAll (root ++ [".mac_build", "backend_dist"])]
             else [])) fun _ =>
  seq (frontendDepsStep cfg w fs now (root ++ ["webapp"])
        (root ++ [".mac_build", "stamps", "webapp_deps.stamp"])
        (if fs.isFile (root ++ ["webapp", "package-lock.json"])
         then some (root ++ ["webapp", "package-lock.json"]) else none)) fun _ =>
  seq (frontendBuildStep cfg w fs (root ++ ["webapp"])
        (root ++ [".mac_build", "stamps", "webapp_build.stamp"])
        (root ++ [".mac_build", "stamps", "webapp_build.env"])
        "VITE_API_MODE=real\nVITE_API_BASE_URL=\n"
        (if fs.isFile (root ++ ["webapp", "package-lock.json"])
         then some (root ++ ["webapp", "package-lock.json"]) else none)) fun t1 =>
  seq (backendDepsStep cfg w fs now (root ++ ["backend"])
        (root ++ [".mac_build", "stamps", "backend_deps.stamp"])
        (root ++ ["backend", "uv.lock"])) fun _ =>
  seq (backendBuildStep cfg w fs (root ++ ["backend"])
        (root ++ [".mac_build", "backend_dist", "backend_server"])
        (root ++ [".mac_build", "stamps", "backend_build.stamp"])
        (root ++ [".mac_build", "stamps", "backend_deps.stamp"])
        (root ++ [".mac_build", "backend_dist"]) (root ++ [".mac_build"])) fun t2 =>
  seq (swiftStep cfg w (root ++ ["macos-app"]) (root ++ [".mac_build"])) fun t3 =>
  if cfg.dry_run then ret ()
  else
    seq (waitTasks cfg now ([t1, t2, t3].filterMap id)) fun _ =>
    if !fs.isFile (root ++ ["macos-app", ".build", "release", "MacWrapper"]) then
      failM .wrapperMissing
    else
      assembleBundle cfg w fs root (root ++ [".mac_build"])
        (root ++ ["dist", cfg.app_name ++ ".app"]) (root ++ ["webapp"])
        (root ++ [".mac_build", "backend_dist", "backend_server"])
        (root ++ ["macos-app", ".build", "release", "MacWrapper"])

/-- The dev-mode adjustment performed by run before calling build:
DEV_MODE implies skipping the backend and Swift stages and clearing the
codesign identity. -/
def applyDevMode (cfg : Config) : Config :=
  if cfg.dev_mode then
    { cfg with skip_backend := true, skip_swift := true, codesign_identity := "" }
  else cfg

/-! Helper lemmas about trace composition. -/

theorem seq_fst_nil {α β : Type} {x : M α} {f : α → M β} (hx : x.1 = [])
    (hf : ∀ a, (f a).1 = []) : (seq x f).1 = [] := by
  cases h : x.2 <;> simp [seq, h, hx, hf]

theorem mem_seq_left {α β : Type} {x : M α} {f : α → M β} {e : Eff}
    (h : e ∈ x.1) : e ∈ (seq x f).1 := by
  cases h2 : x.2 <;> simp [seq, h2, h]

theorem mem_seq_right {α β : Type} {x : M α} {f : α → M β} {e : Eff} {a : α}
    (hx : x.2 = .ok a) (h : e ∈ (f a).1) : e ∈ (seq x f).1 := by
  simp [seq, hx, h]

/-- Every external program launched by a trace lies in the allowed set S. -/
def ProgsIn (tr : List Eff) (S : List String) : Prop :=
  ∀ e ∈ tr, ∀ p, effProg e = some p → p ∈ S

theorem progsIn_nil {S : List String} : ProgsIn [] S := by
  intro e he; cases he

theorem progsIn_append {a b : List Eff} {S : List String}
    (ha : ProgsIn a S) (hb : ProgsIn b S) : ProgsIn (a ++ b) S := by
  intro e he p hp
  rcases List.mem_append.mp he with h | h
  · exact ha e h p hp
  · exact hb e h p hp

theorem progsIn_seq {α β : Type} {x : M α} {f : α → M β} {S : List String}
    (hx : ProgsIn x.1 S) (hf : ∀ a, ProgsIn (f a).1 S) : ProgsIn (seq x f).1 S := by
  intro e he p hp
  cases h2 : x.2 with
  | error err => rw [seq, h2] at he; exact hx e he p hp
  | ok a =>
      rw [seq, h2] at he
      rcases List.mem_append.mp he with h | h
      · exact hx e h p hp
      · exact hf a e h p hp

theorem progsIn_ret {α : Type} {a : α} {S : List String} : ProgsIn (ret a : M α).1 S :=
  progsIn_nil

theorem progsIn_failM {α : Type} {err : BuildErr} {S : List String} :
    ProgsIn (failM err : M α).1 S := progsIn_nil

theorem progsIn_of_none {tr : List Eff} {S : List String}
    (h : ∀ e ∈ tr, effProg e = none) : ProgsIn tr S := by
  intro e he p hp
  rw [h e he] at hp
  cases hp

theorem progsIn_runCmd {cfg : Config} {w : World} {cwd : Option Path}
    {program : String} {args : List String} {envs : List (String × String)}
    {S : List String} (h : program ∈ S) :
    ProgsIn (runCmd cfg w cwd program args envs).1 S := by
  unfold runCmd
  split
  · exact progsIn_ret
  · intro e he p hp
    simp at he
    subst he
    simp [effProg] at hp
    subst hp
    exact h

theorem progsIn_spawn_cmd_with_env {cfg : Config} {w : World} {cwd : Option Path}
    {program : String} {args : List String} {envs : List (String × String)}
    {S : List String} (h : program ∈ S) :
    ProgsIn (spawn_cmd_with_env cfg w cwd program args envs).1 S := by
  unfold spawn_cmd_with_env
  split
  · exact progsIn_failM
  · intro e he p hp
    simp at he
    subst he
    simp [effProg] at hp
    subst hp
    exact h

theorem write_stamp_progs_none {cfg : Config} {now : Nat} {stamp : Path} :
    ∀ e ∈ write_stamp cfg now stamp, effProg e = none := by
  intro e he
  unfold write_stamp at he
  split at he
  · cases he
  · rcases List.mem_append.mp he with h | h
    · split at h <;> simp_all [effProg]
    · simp at h; subst h; rfl

theorem finalizeEffects_progs_none {cfg : Config} {now : Nat} {k : TaskKind} :
    ∀ e ∈ finalizeEffects cfg now k, effProg e = none := by
  intro e he
  cases k with
  | frontendBuild env_file stamp_file env_content =>
      rcases List.mem_cons.mp he with he | he
      · subst he; rfl
      · exact write_stamp_progs_none e he
  | backendBuild stamp_file => exact write_stamp_progs_none e he
  | swiftBuild => cases he

theorem waitTasks_progs_none {cfg : Config} {now : Nat} {ts : List Task} :
    ∀ e ∈ (waitTasks cfg now ts).1, effProg e = none := by
  induction ts with
  | nil => intro e he; cases he
  | cons t rest ih =>
      intro e he
      by_cases h : t.child.exitSuccess
      · simp only [waitTasks, if_pos h] at he
        rcases List.mem_cons.mp he with he | he
        · subst he; rfl
        · rcases List.mem_append.mp he with h2 | h2
          · exact finalizeEffects_progs_none e h2
          · exact ih e h2
      · simp only [waitTasks, if_neg h] at he
        simp at he
        subst he
        rfl

theorem wait_not_mem_finalizeEffects {cfg : Config} {now : Nat} {k : TaskKind}
    {n : String} : Eff.wait n ∉ finalizeEffects cfg now k := by
  intro h
  have := finalizeEffects_progs_none (Eff.wait n) h
  cases k <;> simp_all [finalizeEffects, write_stamp]

/-- Characterization of the wait loop: the trace consists of
wait-then-finalize blocks for the longest prefix of successful tasks, in
registration order, followed by one wait on the first failing task (if
any); the result is Ok exactly when no task failed. -/
theorem waitTasks_eq (cfg : Config) (now : Nat) (ts : List Task) :
    waitTasks cfg now ts =
      (((ts.takeWhile fun t => t.child.exitSuccess).map
          (fun t => Eff.wait t.name :: finalizeEffects cfg now t.kind)).flatten ++
        (match ts.dropWhile (fun t => t.child.exitSuccess) with
         | [] => []
         | f :: _ => [Eff.wait f.name]),
       match ts.dropWhile (fun t => t.child.exitSuccess) with
       | [] => .ok ()
       | f :: _ => .error (.taskFailed f.name)) := by
  induction ts with
  | nil => rfl
  | cons t rest ih =>
      by_cases h : t.child.exitSuccess
      · simp only [waitTasks, if_pos h, List.takeWhile_cons, h, if_true,
          List.dropWhile_cons, List.map_cons, List.flatten_cons, ih]
        simp
      · simp [waitTasks, if_neg h, List.takeWhile_cons, h, List.dropWhile_cons]

theorem writePaths_append (a b : List Eff) :
    writePaths (a ++ b) = writePaths a ++ writePaths b := by
  simp [writePaths]

theorem mem_of_mem_takeWhile {α : Type} {p : α → Bool} {l : List α} {a : α}
    (h : a ∈ l.takeWhile p) : a ∈ l := by
  induction l with
  | nil => cases h
  | cons x xs ih =>
      rw [List.takeWhile_cons] at h
      by_cases hp : p x
      · rw [if_pos hp] at h
        rcases List.mem_cons.mp h with h | h
        · exact h ▸ List.mem_cons_self x xs
        · exact List.mem_cons_of_mem x (ih h)
      · rw [if_neg hp] at h; cases h

theorem pred_of_mem_takeWhile {α : Type} {p : α → Bool} {l : List α} {a : α}
    (h : a ∈ l.takeWhile p) : p a = true := by
  induction l with
  | nil => cases h
  | cons x xs ih =>
      rw [List.takeWhile_cons] at h
      by_cases hp : p x
      · rw [if_pos hp] at h
        rcases List.mem_cons.mp h with h | h
        · exact h ▸ hp
        · exact ih h
      · rw [if_neg hp] at h; cases h

theorem dropWhile_ne_nil_of_exists_fail {l : List Task}
    (h : ∃ t ∈ l, t.child.exitSuccess = false) :
    l.dropWhile (fun t => t.child.exitSuccess) ≠ [] := by
  intro hnil
  obtain ⟨t, ht, hf⟩ := h
  have := List.dropWhile_eq_nil_iff.mp hnil t ht
  simp [hf] at this

/-- CLAIM C1.  For every asynchronous stage task, finalization (side files
then stamp) executes only for tasks whose process was waited on and
reported success: every path written by the wait loop belongs to the
finalization of some successful task, and for a failing task the loop
aborts with a task-failed error and (as long as no successful task happens
to write the same path) none of the failing task's stamp or side files is
ever written. -/
theorem finalize_only_after_confirmed_success (cfg : Config) (now : Nat)
    (tasks : List Task) :
    (∀ p ∈ writePaths (waitTasks cfg now tasks).1,
        ∃ u ∈ tasks, u.child.exitSuccess = true ∧
          p ∈ finalizeWritePaths cfg now u.kind) ∧
    (∀ t ∈ tasks, t.child.exitSuccess = false →
        (∃ n, (waitTasks cfg now tasks).2 = .error (.taskFailed n)) ∧
        (∀ p ∈ finalizeWritePaths cfg now t.kind,
            (∀ u ∈ tasks, u.child.exitSuccess = true →
               p ∉ finalizeWritePaths cfg now u.kind) →
            p ∉ writePaths (waitTasks cfg now tasks).1)) := by
  have hmain : ∀ p ∈ writePaths (waitTasks cfg now tasks).1,
      ∃ u ∈ tasks, u.child.exitSuccess = true ∧
        p ∈ finalizeWritePaths cfg now u.kind := by
    intro p hp
    rw [waitTasks_eq] at hp
    simp only [writePaths_append] at hp
    rcases List.mem_append.mp hp with hp | hp
    · simp only [writePaths, List.mem_filterMap] at hp
      obtain ⟨e, he, hpe⟩ := hp
      rw [List.mem_flatten] at he
      obtain ⟨blk, hblk, heblk⟩ := he
      rw [List.mem_map] at hblk
      obtain ⟨u, hu, hublk⟩ := hblk
      have hupred := pred_of_mem_takeWhile hu
      refine ⟨u, mem_of_mem_takeWhile hu, hupred, ?_⟩
      subst hublk
      rcases List.mem_cons.mp heblk with he2 | he2
      · subst he2; cases hpe
      · exact List.mem_filterMap.mpr ⟨e, he2, hpe⟩
    · exfalso
      rcases hdw : tasks.dropWhile (fun t => t.child.exitSuccess) with _ | ⟨f, _⟩ <;>
        rw [hdw] at hp <;> simp [writePaths, effWritePath] at hp
  refine ⟨hmain, ?_⟩
  intro t ht hfail
  constructor
  · rw [waitTasks_eq]
    rcases hdw : tasks.dropWhile (fun u => u.child.exitSuccess) with _ | ⟨f, _⟩
    · exact absurd hdw (dropWhile_ne_nil_of_exists_fail ⟨t, ht, hfail⟩)
    · exact ⟨f.name, by rw [hdw]⟩
  · intro p _ hdisj hmem
    obtain ⟨u, hu, husucc, hup⟩ := hmain p hmem
    exact hdisj u hu husucc hup

/-- CLAIM C2.  With task A registered before task B, A succeeding and B
failing, the wait loop waits on A and fully finalizes it (its trace block
precedes everything else), then waits on B and surfaces B's failure as the
run's error; tasks registered after B are never waited on, and the effect
vocabulary contains no cancellation, mirroring the source. -/
theorem wait_in_registration_order (cfg : Config) (now : Nat) (A B : Task)
    (rest : List Task) (hA : A.child.exitSuccess = true)
    (hB : B.child.exitSuccess = false) :
    (waitTasks cfg now (A :: B :: rest)).1 =
      Eff.wait A.name :: (finalizeEffects cfg now A.kind ++ [Eff.wait B.name]) ∧
    (waitTasks cfg now (A :: B :: rest)).2 = .error (.taskFailed B.name) ∧
    (∀ t ∈ rest, t.name ≠ A.name → t.name ≠ B.name →
       Eff.wait t.name ∉ (waitTasks cfg now (A :: B :: rest)).1) := by
  have htr : (waitTasks cfg now (A :: B :: rest)).1 =
      Eff.wait A.name :: (finalizeEffects cfg now A.kind ++ [Eff.wait B.name]) := by
    simp [waitTasks, hA, hB]
  refine ⟨htr, by simp [waitTasks, hA, hB], ?_⟩
  intro t _ hnA hnB hmem
  rw [htr] at hmem
  rcases List.mem_cons.mp hmem with h | h
  · exact hnA (by injection h)
  · rcases List.mem_append.mp h with h | h
    · exact wait_not_mem_finalizeEffects h
    · simp at h
      exact hnB h

/-! Helper lemmas about staleness. -/

theorem file_newer_than_eq_false {fs : FS} {file stamp : Path}
    (hstamp : fs.isFile stamp = true)
    (hle : fs.mtime file ≤ fs.mtime stamp) :
    file_newer_than fs file stamp = false := by
  unfold file_newer_than
  cases hf : fs.isFile file with
  | false => simp
  | true => simp [hstamp]; omega

theorem dir_has_newer_than_eq_false {fs : FS} {dir stamp : Path}
    (hstamp : fs.isFile stamp = true)
    (hall : ∀ f ∈ fs.filesUnder dir, fs.mtime f ≤ fs.mtime stamp) :
    dir_has_newer_than fs dir stamp = false := by
  unfold dir_has_newer_than
  cases hd : fs.isDir dir with
  | false => simp
  | true =>
      simp only [hstamp, Bool.not_true, Bool.false_eq_true, if_false,
        Bool.true_eq_false]
      rw [List.any_eq_false]
      intro f hf
      simp only [decide_eq_true_eq, Nat.not_lt]
      exact hall f hf

/-- CLAIM C7.  For both cacheable stages (frontend build, backend build):
when the output directory exists, the stamp exists, the recorded
parameter snapshot matches (frontend only; the backend stage has none),
and no watched file - nor any file under a watched directory subtree -
has a modification time strictly greater than the stamp's (equal times
allowed), the staleness check returns false. -/
theorem fresh_stages_not_stale (fs : FS)
    (webapp_dir build_stamp build_env_file : Path) (env_content : String)
    (lock_file : Option Path)
    (backend_dir backend_product_dir bbuild_stamp bdeps_stamp : Path)
    (h1 : fs.isDir (webapp_dir ++ ["dist"]) = true)
    (h2 : fs.isFile build_stamp = true)
    (h3 : fs.isFile build_env_file = true)
    (h4 : fs.content build_env_file = env_content)
    (h5 : fs.mtime (webapp_dir ++ ["package.json"]) ≤ fs.mtime build_stamp)
    (h6 : ∀ l, lock_file = some l → fs.mtime l ≤ fs.mtime build_stamp)
    (h7 : fs.mtime (webapp_dir ++ ["index.html"]) ≤ fs.mtime build_stamp)
    (h8 : ∀ f ∈ fs.filesUnder (webapp_dir ++ ["src"]), fs.mtime f ≤ fs.mtime build_stamp)
    (h9 : ∀ f ∈ fs.filesUnder (webapp_dir ++ ["public"]), fs.mtime f ≤ fs.mtime build_stamp)
    (h10 : ∀ p ∈ vite_config_candidates webapp_dir, fs.mtime p ≤ fs.mtime build_stamp)
    (g1 : fs.isDir backend_product_dir = true)
    (g2 : fs.isFile bbuild_stamp = true)
    (g3 : fs.mtime bdeps_stamp ≤ fs.mtime bbuild_stamp)
    (g4 : fs.mtime (backend_dir ++ ["macapp_entry.py"]) ≤ fs.mtime bbuild_stamp)
    (g5 : ∀ f ∈ fs.filesUnder (backend_dir ++ ["app"]), fs.mtime f ≤ fs.mtime bbuild_stamp) :
    compute_need_webapp_build fs webapp_dir build_stamp build_env_file
      env_content lock_file = false ∧
    compute_need_backend_pyinstaller fs backend_dir backend_product_dir
      bbuild_stamp bdeps_stamp = false := by
  constructor
  · simp only [compute_need_webapp_build, h1, h2, h3, h4,
      file_newer_than_eq_false h2 h5, file_newer_than_eq_false h2 h7,
      dir_has_newer_than_eq_false h2 h8, dir_has_newer_than_eq_false h2 h9,
      Bool.not_true, bne_self_eq_false, Bool.false_eq_true, if_false]
    split
    · next hcond =>
        exfalso
        cases hl : lock_file with
        | none =>
            rw [hl] at hcond
            exact Bool.false_ne_true hcond
        | some l =>
            rw [hl] at hcond
            have hc2 : file_newer_than fs l build_stamp = true := hcond
            rw [file_newer_than_eq_false h2 (h6 l hl)] at hc2
            exact Bool.false_ne_true hc2
    · rw [List.any_eq_false]
      intro p hp
      simp [file_newer_than_eq_false h2 (h10 p hp)]
  · unfold compute_need_backend_pyinstaller
    have hdeps : (fs.isFile bdeps_stamp &&
        decide (fs.mtime bbuild_stamp < fs.mtime bdeps_stamp)) = false := by
      cases hdf : fs.isFile bdeps_stamp with
      | false => rfl
      | true => simp; omega
    simp [g1, g2, hdeps, file_newer_than_eq_false g2 g4,
      dir_has_newer_than_eq_false g2 g5]

/-- CLAIM C8.  For both cacheable stages, a missing stamp makes the
staleness check return true, whatever the input timestamps are
(cold-start property). -/
theorem missing_stamp_is_stale (fs : FS)
    (webapp_dir build_stamp build_env_file : Path) (env_content : String)
    (lock_file : Option Path)
    (backend_dir backend_product_dir bbuild_stamp bdeps_stamp : Path)
    (hW : fs.isFile build_stamp = false)
    (hB : fs.isFile bbuild_stamp = false) :
    compute_need_webapp_build fs webapp_dir build_stamp build_env_file
      env_content lock_file = true ∧
    compute_need_backend_pyinstaller fs backend_dir backend_product_dir
      bbuild_stamp bdeps_stamp = true := by
  constructor
  · unfold compute_need_webapp_build
    cases fs.isDir (webapp_dir ++ ["dist"]) <;> simp [hW]
  · unfold compute_need_backend_pyinstaller
    cases fs.isDir backend_product_dir <;> simp [hB]

/-- CORRECTED CLAIM C6 (counterexample).  The claim says the type-marker
file is written with a fixed constant value exactly 4 bytes long; at the
concrete bundle dist/Budget.app the value written is APPL???? whose
length is not 4 (it is 8: type code plus creator code). -/
theorem pkg_info_marker_not_four_bytes :
    write_pkg_info ["dist", "Budget.app"] =
      [Eff.writeFile ["dist", "Budget.app", "Contents", "PkgInfo"] "APPL????"] ∧
    "APPL????".length ≠ 4 := by
  constructor
  · rfl
  · decide

/-- CLAIM C6 as amended.  On every successful assembly the bundle's
type-marker file Contents/PkgInfo is written with the fixed constant
value APPL????, which is exactly 8 bytes long. -/
theorem pkg_info_marker_fixed_eight_bytes (app_bundle : Path) :
    write_pkg_info app_bundle =
      [Eff.writeFile (app_bundle ++ ["Contents", "PkgInfo"]) "APPL????"] ∧
    "APPL????".length = 8 := by
  constructor
  · rfl
  · decide

/-- Witness for the amended claim C6 at a concrete bundle path. -/
theorem pkg_info_marker_fixed_eight_bytes_witness :
    write_pkg_info ["out", "A.app"] =
      [Eff.writeFile ["out", "A.app", "Contents", "PkgInfo"] "APPL????"] ∧
    "APPL????".length = 8 :=
  pkg_info_marker_fixed_eight_bytes ["out", "A.app"]

/-- The configuration of the metadata-fidelity scenario of the spec. -/
def cfgWidget : Config :=
  { app_name := "Widget", bundle_id := "com.x.widget", app_version := "2.3.0",
    build_number := "7", clean := false, force_frontend := false,
    force_backend := false, force_swift := false, skip_frontend := false,
    skip_backend := false, skip_swift := false, dev_mode := false,
    verbose := false, dry_run := false, codesign_identity := "" }

/-- CLAIM C9.  With app_name Widget, bundle_id com.x.widget, app_version
2.3.0 and build_number 7, the generated Info.plist contains those four
literal values under their four fixed keys, and it contains the
icon-reference key CFBundleIconFile exactly when icon generation reported
success (both values of has_icon are checked). -/
theorem info_plist_metadata_fidelity :
    strContains (info_plist_content cfgWidget true)
      "<key>CFBundleName</key>\n  <string>Widget</string>" = true ∧
    strContains (info_plist_content cfgWidget true)
      "<key>CFBundleIdentifier</key>\n  <string>com.x.widget</string>" = true ∧
    strContains (info_plist_content cfgWidget true)
      "<key>CFBundleShortVersionString</key>\n  <string>2.3.0</string>" = true ∧
    strContains (info_plist_content cfgWidget true)
      "<key>CFBundleVersion</key>\n  <string>7</string>" = true ∧
    strContains (info_plist_content cfgWidget false)
      "<key>CFBundleName</key>\n  <string>Widget</string>" = true ∧
    strContains (info_plist_content cfgWidget false)
      "<key>CFBundleIdentifier</key>\n  <string>com.x.widget</string>" = true ∧
    strContains (info_plist_content cfgWidget false)
      "<key>CFBundleShortVersionString</key>\n  <string>2.3.0</string>" = true ∧
    strContains (info_plist_content cfgWidget false)
      "<key>CFBundleVersion</key>\n  <string>7</string>" = true ∧
    strContains (info_plist_content cfgWidget true) "CFBundleIconFile" = true ∧
    strContains (info_plist_content cfgWidget false) "CFBundleIconFile" = false := by
  decide

/-! More sequencing helpers and concrete scenarios. -/

theorem seq_snd_ok {α β : Type} {x : M α} {f : α → M β} {a : α}
    (hx : x.2 = .ok a) : (seq x f).2 = (f a).2 := by
  simp [seq, hx]

theorem sips_resize_calls_ok {cfg : Config} {w : World} {src dst : Path}
    (h : ∀ args, w.runOk "sips" args = true) (l : List (Nat × String)) :
    (sips_resize_calls cfg w src dst l).2 = .ok () := by
  induction l with
  | nil => rfl
  | cons p rest ih =>
      obtain ⟨size, name⟩ := p
      by_cases hd : cfg.dry_run
      · simp [sips_resize_calls, runCmd, hd, seq, ret, ih]
      · simp [sips_resize_calls, runCmd, hd, seq, h, ih]

/-- A configuration with every flag off (the defaults of Config::from_env
with an empty environment). -/
def cfgBase : Config :=
  { app_name := "Budget", bundle_id := "com.budget.app", app_version := "0.1.0",
    build_number := "1", clean := false, force_frontend := false,
    force_backend := false, force_swift := false, skip_frontend := false,
    skip_backend := false, skip_swift := false, dev_mode := false,
    verbose := false, dry_run := false, codesign_identity := "" }

/-- The base configuration with all three stages skipped. -/
def cfgSkipAll : Config :=
  { cfgBase with skip_frontend := true, skip_backend := true, skip_swift := true }

/-- A 1x1 fully transparent image: find_bg_color can find no background pixel. -/
def imgTransparent : RgbaImg := { width := 1, height := 1, pixels := [0, 0, 0, 0] }

/-- A 1x1 opaque dark pixel: find_bg_color succeeds immediately. -/
def imgOpaque : RgbaImg := { width := 1, height := 1, pixels := [10, 20, 30, 255] }

/-- A world in which every tool exists, every command and spawn succeeds,
and every PNG decodes to the given image. -/
def wAllOk (img : RgbaImg) : World :=
  { hasCmd := fun _ => true, runOk := fun _ _ => true, spawnOk := fun _ _ => true,
    waitOk := fun _ _ => true, loadPng := fun _ => .ok img }

/-- A filesystem holding just enough for assembly to reach icon
generation: the wrapper binary, the backend product directory, the
frontend dist directory, the icon source directory and one icon source
file. -/
def fsIconReady : FS :=
  { isFile := fun p => p == ["r", "macos-app", ".build", "release", "MacWrapper"] ||
      p == ["r", "webapp", "public", "favicon", "favicon-512.png"]
    isDir := fun p => p == ["r", ".mac_build", "backend_dist", "backend_server"] ||
      p == ["r", "webapp", "dist"] || p == ["r", "webapp", "public", "favicon"]
    mtime := fun _ => 0
    content := fun _ => ""
    size := fun _ => 0
    filesUnder := fun _ => [] }

/-- An empty filesystem: no files, no directories. -/
def fsEmpty : FS :=
  { isFile := fun _ => false, isDir := fun _ => false, mtime := fun _ => 0,
    content := fun _ => "", size := fun _ => 0, filesUnder := fun _ => [] }

/-- A filesystem in which the icon source directory exists but holds none
of the three candidate source files. -/
def fsIconDirOnly : FS :=
  { fsEmpty with isDir := fun p => p == ["r", "webapp", "public", "favicon"] }

/-- CORRECTED CLAIM C5 (counterexample).  The claim says any failure while
producing the icon is non-fatal; here a full run (all stages skipped, all
commands succeeding, every assembly prerequisite present) aborts with an
error because image flattening fails: the icon source decodes to a fully
transparent 1x1 image, find_bg_color finds no background pixel, and the
resulting error propagates out of build_app_icon through build. -/
theorem icon_flatten_failure_aborts_run :
    (build cfgSkipAll (wAllOk imgTransparent) fsIconReady 0 ["r"]).2 =
      .error .bgColorNotFound := by
  decide

/-- CLAIM C5 as amended.  Icon-generation failure is non-fatal in exactly
the three warning paths of build_app_icon: a missing source directory, no
suitable source file, and failure of the icns conversion (neither
iconutil nor the sips fallback produced a non-empty icns file) - in each
case the result is Ok false and the bundle is completed without an icon.
Image-flattening failure and sips resize failure, by contrast, propagate
as errors and abort the run (see the counterexample). -/
theorem icon_failure_nonfatal_cases (cfg : Config) (w : World) (fs : FS)
    (root work_dir app_bundle : Path) :
    (fs.isDir (root ++ ["webapp", "public", "favicon"]) = false →
       build_app_icon cfg w fs root work_dir app_bundle = ([], .ok false)) ∧
    (first_icon_candidate fs (root ++ ["webapp", "public", "favicon"]) = none →
       build_app_icon cfg w fs root work_dir app_bundle = ([], .ok false)) ∧
    (∀ src, first_icon_candidate fs (root ++ ["webapp", "public", "favicon"]) = some src →
       (flatten_icon_to_opaque_png w src (work_dir ++ ["appicon_source_macos.png"])).2 =
         .ok () →
       (∀ args, w.runOk "sips" args = true) →
       fs.isFile (app_bundle ++ ["Contents", "Resources", "appicon.icns"]) = false →
       (build_app_icon cfg w fs root work_dir app_bundle).2 = .ok false) := by
  refine ⟨?_, ?_, ?_⟩
  · intro hdir
    simp [build_app_icon, hdir, ret]
  · intro hcand
    by_cases hdir : fs.isDir (root ++ ["webapp", "public", "favicon"])
    · simp [build_app_icon, hdir, hcand, ret]
    · simp [build_app_icon, hdir, ret]
  · intro src hsrc hflat hsips hicns
    by_cases hdir : fs.isDir (root ++ ["webapp", "public", "favicon"])
    · simp only [build_app_icon, hdir, Bool.not_true, Bool.false_eq_true,
        if_false, hsrc]
      rw [seq_snd_ok hflat]
      rw [seq_snd_ok rfl]
      rw [seq_snd_ok (sips_resize_calls_ok hsips icon_sizes)]
      rw [seq_snd_ok rfl]
      rw [seq_snd_ok rfl]
      simp [hicns, seq, emit, ret]
    · simp [build_app_icon, hdir, ret]

/-- Witness for the amended claim C5: all three non-fatal paths at
concrete inputs (missing source directory; directory present but no
candidate file; flattening and resizes fine but no icns produced). -/
theorem icon_failure_nonfatal_cases_witness :
    build_app_icon cfgBase (wAllOk imgOpaque) fsEmpty ["r"] ["w"] ["a"] =
      ([], .ok false) ∧
    build_app_icon cfgBase (wAllOk imgOpaque) fsIconDirOnly ["r"] ["w"] ["a"] =
      ([], .ok false) ∧
    (build_app_icon cfgBase (wAllOk imgOpaque) fsIconReady ["r"] ["w"] ["a"]).2 =
      .ok false := by
  refine ⟨?_, ?_, ?_⟩
  · exact (icon_failure_nonfatal_cases cfgBase (wAllOk imgOpaque) fsEmpty
      ["r"] ["w"] ["a"]).1 (by decide)
  · exact (icon_failure_nonfatal_cases cfgBase (wAllOk imgOpaque) fsIconDirOnly
      ["r"] ["w"] ["a"]).2.1 (by decide)
  · exact (icon_failure_nonfatal_cases cfgBase (wAllOk imgOpaque) fsIconReady
      ["r"] ["w"] ["a"]).2.2
      (["r", "webapp", "public", "favicon", "favicon-512.png"]) (by decide)
      (by decide) (fun args => rfl) (by decide)

/-! Dry-run lemmas. -/

theorem require_cmd_fst (w : World) (c : String) : (require_cmd w c).1 = [] := by
  unfold require_cmd
  split <;> rfl

theorem requireToolchain_fst (w : World) : (requireToolchain w).1 = [] := by
  unfold requireToolchain
  refine seq_fst_nil (require_cmd_fst w "npm") fun _ => ?_
  refine seq_fst_nil (require_cmd_fst w "node") fun _ => ?_
  refine seq_fst_nil (require_cmd_fst w "uv") fun _ => ?_
  refine seq_fst_nil (require_cmd_fst w "swift") fun _ => ?_
  exact seq_fst_nil (require_cmd_fst w "xcrun") fun _ => require_cmd_fst w "rsync"

theorem runCmd_dry {cfg : Config} (h : cfg.dry_run = true) (w : World)
    (cwd : Option Path) (program : String) (args : List String)
    (envs : List (String × String)) :
    runCmd cfg w cwd program args envs = ret () := by
  simp [runCmd, h]

theorem write_stamp_dry {cfg : Config} (h : cfg.dry_run = true) (now : Nat)
    (stamp : Path) : write_stamp cfg now stamp = [] := by
  simp [write_stamp, h]

theorem frontendDepsStep_dry {cfg : Config} (h : cfg.dry_run = true)
    (w : World) (fs : FS) (now : Nat) (webapp_dir webapp_deps_stamp : Path)
    (lock_file : Option Path) :
    frontendDepsStep cfg w fs now webapp_dir webapp_deps_stamp lock_file = ret () := by
  unfold frontendDepsStep
  split
  · rfl
  · split
    · rw [runCmd_dry h]
      simp [seq, ret, emit, write_stamp_dry h]
    · rfl

theorem frontendBuildStep_dry {cfg : Config} (h : cfg.dry_run = true)
    (w : World) (fs : FS) (d s ef : Path) (ec : String) (lf : Option Path) :
    frontendBuildStep cfg w fs d s ef ec lf = ret none := by
  unfold frontendBuildStep
  simp [h, runCmd_dry h, seq, ret]

theorem backendDepsStep_dry {cfg : Config} (h : cfg.dry_run = true)
    (w : World) (fs : FS) (now : Nat) (bd bds blf : Path) :
    backendDepsStep cfg w fs now bd bds blf = ret () := by
  unfold backendDepsStep
  split
  · rfl
  · split
    · rw [runCmd_dry h]
      simp [seq, ret, emit, write_stamp_dry h]
    · rfl

theorem backendBuildStep_dry {cfg : Config} (h : cfg.dry_run = true)
    (w : World) (fs : FS) (bd bp bs bds bo wd : Path) :
    backendBuildStep cfg w fs bd bp bs bds bo wd = ret none := by
  unfold backendBuildStep
  simp [h, runCmd_dry h, seq, ret]

theorem swiftStep_dry {cfg : Config} (h : cfg.dry_run = true)
    (w : World) (wd wk : Path) : swiftStep cfg w wd wk = ret none := by
  unfold swiftStep
  simp [h, runCmd_dry h, seq, ret, emit]

/-- CLAIM C3.  Under the dry-run flag a full run records no effect at all:
no directory is created or removed, no stamp or other file is written, no
process is run or spawned (the trace is empty); any attempt to spawn an
asynchronous process in planning mode returns an error instead of
launching; and each of the three task-producing steps returns no task, so
the coordinator ends the run holding no live process handles. -/
theorem dry_run_is_pure (cfg : Config) (w : World) (fs : FS) (now : Nat)
    (root : Path) (cwd : Option Path) (program : String) (args : List String)
    (envs : List (String × String)) (d s ef : Path) (ec : String)
    (lf : Option Path) (bd bp bs bds bo wd wk : Path)
    (h : cfg.dry_run = true) :
    (build cfg w fs now root).1 = [] ∧
    spawn_cmd_with_env cfg w cwd program args envs = ([], .error .spawnInDryRun) ∧
    (frontendBuildStep cfg w fs d s ef ec lf).2 = .ok none ∧
    (backendBuildStep cfg w fs bd bp bs bds bo wd).2 = .ok none ∧
    (swiftStep cfg w wd wk).2 = .ok none := by
  refine ⟨?_, by simp [spawn_cmd_with_env, h, failM], ?_, ?_, ?_⟩
  · unfold build
    cases hr : (requireToolchain w).2 with
    | error e => simp [seq, hr, requireToolchain_fst]
    | ok a =>
        simp [seq, hr, requireToolchain_fst, h, emit, ret,
          frontendDepsStep_dry h, frontendBuildStep_dry h,
          backendDepsStep_dry h, backendBuildStep_dry h, swiftStep_dry h]
  · rw [frontendBuildStep_dry h]; rfl
  · rw [backendBuildStep_dry h]; rfl
  · rw [swiftStep_dry h]; rfl

/-- A copy of the base configuration with the dry-run flag set. -/
def cfgDryRun : Config := { cfgBase with dry_run := true }

/-- Witness for claim C3 at concrete inputs: a dry run over the
icon-ready filesystem produces an empty trace, a spawn attempt errors,
and no step registers a task. -/
theorem dry_run_is_pure_witness :
    (build cfgDryRun (wAllOk imgOpaque) fsIconReady 0 ["r"]).1 = [] ∧
    spawn_cmd_with_env cfgDryRun (wAllOk imgOpaque) none "npm" ["run", "build"] [] =
      ([], .error .spawnInDryRun) ∧
    (frontendBuildStep cfgDryRun (wAllOk imgOpaque) fsIconReady ["r", "webapp"]
      ["s"] ["e"] "c" none).2 = .ok none ∧
    (backendBuildStep cfgDryRun (wAllOk imgOpaque) fsIconReady ["r", "backend"]
      ["p"] ["s"] ["d"] ["o"] ["w"]).2 = .ok none ∧
    (swiftStep cfgDryRun (wAllOk imgOpaque) ["r", "macos-app"] ["w"]).2 = .ok none :=
  dry_run_is_pure cfgDryRun (wAllOk imgOpaque) fsIconReady 0 ["r"] none "npm"
    ["run", "build"] [] ["r", "webapp"] ["s"] ["e"] "c" none ["r", "backend"]
    ["p"] ["s"] ["d"] ["o"] ["w"] ["w"] rfl

/-! Per-step program-set lemmas: which external programs each phase of the
pipeline can launch. -/

theorem progsIn_runSyncList {cwd : Option Path} {prog : String}
    {args : List String} {envs : List (String × String)} {S : List String}
    (h : prog ∈ S) : ProgsIn [Eff.runSync cwd prog args envs] S := by
  intro e he p hp
  simp at he
  subst he
  simp [effProg] at hp
  subst hp
  exact h

theorem progsIn_spawn_cmd {cfg : Config} {w : World} {cwd : Option Path}
    {program : String} {args : List String} {envs : List (String × String)}
    {S : List String} (h : program ∈ S) :
    ProgsIn (spawn_cmd cfg w cwd program args envs).1 S := by
  unfold spawn_cmd
  exact progsIn_spawn_cmd_with_env h

theorem copy_executable_progs_none {src dest : Path} :
    ∀ e ∈ copy_executable src dest, effProg e = none := by
  intro e he
  unfold copy_executable at he
  rcases List.mem_append.mp he with h | h
  · split at h
    · cases h
    · simp at h; subst h; rfl
  · rcases List.mem_cons.mp h with h | h
    · subst h; rfl
    · simp at h; subst h; rfl

theorem emit_fst (effs : List Eff) : (emit effs).1 = effs := rfl

theorem flatten_progs_none {w : World} {input output : Path} :
    ∀ e ∈ (flatten_icon_to_opaque_png w input output).1, effProg e = none := by
  intro e he
  unfold flatten_icon_to_opaque_png at he
  split at he
  · cases he
  · split at he
    · cases he
    · split at he
      · cases he
      · rcases List.mem_append.mp he with h | h
        · split at h
          · cases h
          · simp at h; subst h; rfl
        · simp at h; subst h; rfl

theorem sips_resize_calls_progs {cfg : Config} {w : World} {src dst : Path}
    {S : List String} (h : "sips" ∈ S) (l : List (Nat × String)) :
    ProgsIn (sips_resize_calls cfg w src dst l).1 S := by
  induction l with
  | nil => exact progsIn_ret
  | cons p rest ih =>
      obtain ⟨size, name⟩ := p
      exact progsIn_seq (progsIn_runCmd h) fun _ => ih

theorem build_app_icon_progs {cfg : Config} {w : World} {fs : FS}
    {root work_dir app_bundle : Path} {S : List String}
    (hs : "sips" ∈ S) (hi : "iconutil" ∈ S) :
    ProgsIn (build_app_icon cfg w fs root work_dir app_bundle).1 S := by
  unfold build_app_icon
  split
  · exact progsIn_ret
  · split
    · exact progsIn_ret
    · refine progsIn_seq (progsIn_of_none flatten_progs_none) fun _ => ?_
      refine progsIn_seq (progsIn_of_none ?_) fun _ => ?_
      · intro e he
        rcases List.mem_cons.mp he with h | h
        · subst h; rfl
        · simp at h; subst h; rfl
      · refine progsIn_seq (sips_resize_calls_progs hs icon_sizes) fun _ => ?_
        refine progsIn_seq (progsIn_of_none ?_) fun _ => ?_
        · intro e he; simp [emit_fst] at he; subst he; rfl
        · refine progsIn_seq ?_ fun _ => ?_
          · show ProgsIn (emit _).1 S
            rw [emit_fst]
            split
            · exact progsIn_runSyncList hi
            · exact progsIn_nil
          · split
            · exact progsIn_ret
            · refine progsIn_seq (progsIn_runSyncList hs) fun _ => progsIn_ret

theorem assembleBundle_progs {cfg : Config} {w : World} {fs : FS}
    {root work_dir app_bundle webapp_dir backend_product_dir wrapper_bin : Path}
    {S : List String} (hr : "rsync" ∈ S) (hs : "sips" ∈ S) (hi : "iconutil" ∈ S)
    (ht : "touch" ∈ S)
    (hcs : blank_after_trim cfg.codesign_identity = true ∨ "codesign" ∈ S) :
    ProgsIn (assembleBundle cfg w fs root work_dir app_bundle webapp_dir
      backend_product_dir wrapper_bin).1 S := by
  unfold assembleBundle
  refine progsIn_seq (progsIn_of_none ?_) fun _ => ?_
  · intro e he
    rw [emit_fst] at he
    rcases List.mem_cons.mp he with h | h
    · subst h; rfl
    · simp at h; subst h; rfl
  · refine progsIn_seq (progsIn_of_none ?_) fun _ => ?_
    · intro e he
      rw [emit_fst] at he
      exact copy_executable_progs_none e he
    · split
      · exact progsIn_failM
      · refine progsIn_seq (progsIn_of_none ?_) fun _ => ?_
        · intro e he; simp [emit_fst] at he; subst he; rfl
        · refine progsIn_seq (progsIn_runCmd hr) fun _ => ?_
          split
          · exact progsIn_failM
          · refine progsIn_seq (progsIn_of_none ?_) fun _ => ?_
            · intro e he; simp [emit_fst] at he; subst he; rfl
            · refine progsIn_seq (progsIn_runCmd hr) fun _ => ?_
              refine progsIn_seq (build_app_icon_progs hs hi) fun has_icon => ?_
              refine progsIn_seq (progsIn_of_none ?_) fun _ => ?_
              · intro e he; simp [emit_fst, write_info_plist] at he; subst he; rfl
              · refine progsIn_seq (progsIn_of_none ?_) fun _ => ?_
                · intro e he; simp [emit_fst, write_pkg_info] at he; subst he; rfl
                · refine progsIn_seq ?_ fun _ => ?_
                  · show ProgsIn (emit _).1 S
                    rw [emit_fst]
                    exact progsIn_runSyncList ht
                  · split
                    · next hcond =>
                        rcases hcs with hb | hc
                        · rw [hb] at hcond; simp at hcond
                        · exact progsIn_runCmd hc
                    · exact progsIn_ret

theorem frontendDepsStep_progs {cfg : Config} {w : World} {fs : FS} {now : Nat}
    {d s : Path} {lf : Option Path} {S : List String} (h : "npm" ∈ S) :
    ProgsIn (frontendDepsStep cfg w fs now d s lf).1 S := by
  unfold frontendDepsStep
  split
  · exact progsIn_ret
  · split
    · exact progsIn_seq (progsIn_runCmd h) fun _ =>
        progsIn_of_none fun e he => write_stamp_progs_none e he
    · exact progsIn_ret

theorem frontendBuildStep_progs {cfg : Config} {w : World} {fs : FS}
    {d s ef : Path} {ec : String} {lf : Option Path} {S : List String}
    (h : "npm" ∈ S) : ProgsIn (frontendBuildStep cfg w fs d s ef ec lf).1 S := by
  unfold frontendBuildStep
  split
  · exact progsIn_ret
  · split
    · split
      · exact progsIn_seq (progsIn_runCmd h) fun _ => progsIn_ret
      · exact progsIn_seq (progsIn_spawn_cmd h) fun _ => progsIn_ret
    · exact progsIn_ret

theorem backendDepsStep_progs {cfg : Config} {w : World} {fs : FS} {now : Nat}
    {bd bds blf : Path} {S : List String} (h : "uv" ∈ S) :
    ProgsIn (backendDepsStep cfg w fs now bd bds blf).1 S := by
  unfold backendDepsStep
  split
  · exact progsIn_ret
  · split
    · exact progsIn_seq (progsIn_runCmd h) fun _ =>
        progsIn_of_none fun e he => write_stamp_progs_none e he
    · exact progsIn_ret

theorem backendBuildStep_progs {cfg : Config} {w : World} {fs : FS}
    {bd bp bs bds bo wd : Path} {S : List String} (h : "uv" ∈ S) :
    ProgsIn (backendBuildStep cfg w fs bd bp bs bds bo wd).1 S := by
  unfold backendBuildStep
  split
  · exact progsIn_ret
  · split
    · split
      · exact progsIn_seq (progsIn_runCmd h) fun _ => progsIn_ret
      · exact progsIn_seq (progsIn_spawn_cmd h) fun _ => progsIn_ret
    · exact progsIn_ret

theorem swiftStep_progs {cfg : Config} {w : World} {wd wk : Path}
    {S : List String} (h : "swift" ∈ S) :
    ProgsIn (swiftStep cfg w wd wk).1 S := by
  unfold swiftStep
  split
  · exact progsIn_ret
  · refine progsIn_seq (progsIn_of_none ?_) fun _ => ?_
    · intro e he
      rw [emit_fst] at he
      split at he
      · cases he
      · simp at he; subst he; rfl
    · split
      · exact progsIn_seq (progsIn_runCmd h) fun _ => progsIn_ret
      · exact progsIn_seq (progsIn_spawn_cmd_with_env h) fun _ => progsIn_ret

/-- The complete program set of a build: every external program a run can
launch lies in S, with codesign needed only when the identity is not
blank. -/
theorem build_progs {cfg : Config} {w : World} {fs : FS} {now : Nat}
    {root : Path} {S : List String} (h1 : "npm" ∈ S) (h2 : "uv" ∈ S)
    (h3 : "swift" ∈ S) (h4 : "rsync" ∈ S) (h5 : "sips" ∈ S)
    (h6 : "iconutil" ∈ S) (h7 : "touch" ∈ S)
    (h8 : blank_after_trim cfg.codesign_identity = true ∨ "codesign" ∈ S) :
    ProgsIn (build cfg w fs now root).1 S := by
  unfold build
  refine progsIn_seq (progsIn_of_none ?_) fun _ => ?_
  · rw [requireToolchain_fst]
    intro e he
    cases he
  · refine progsIn_seq (progsIn_of_none ?_) fun _ => ?_
    · intro e he
      show effProg e = none
      rw [emit_fst] at he
      split at he
      · split at he
        · cases he
        · rcases List.mem_cons.mp he with h | h
          · subst h; rfl
          · simp at h; subst h; rfl
      · cases he
    · refine progsIn_seq (progsIn_of_none ?_) fun _ => ?_
      · intro e he
        show effProg e = none
        rw [emit_fst] at he
        split at he
        · simp at he
          rcases he with h | h | h | h <;> (subst h; rfl)
        · cases he
      · refine progsIn_seq (frontendDepsStep_progs h1) fun _ => ?_
        refine progsIn_seq (frontendBuildStep_progs h1) fun t1 => ?_
        refine progsIn_seq (backendDepsStep_progs h2) fun _ => ?_
        refine progsIn_seq (backendBuildStep_progs h2) fun t2 => ?_
        refine progsIn_seq (swiftStep_progs h3) fun t3 => ?_
        split
        · exact progsIn_ret
        · refine progsIn_seq (progsIn_of_none waitTasks_progs_none) fun _ => ?_
          split
          · exact progsIn_failM
          · exact assembleBundle_progs h4 h5 h6 h7 h8

/-- CLAIM C10.  With the dev-mode flag set, run adjusts the configuration
before build starts: the backend and Swift stages are also skipped and
the codesign identity is cleared, so no run under the adjusted
configuration ever launches the signing program, even if an identity had
been configured. -/
theorem dev_mode_skips_and_never_signs (cfg : Config) (h : cfg.dev_mode = true) :
    (applyDevMode cfg).skip_backend = true ∧
    (applyDevMode cfg).skip_swift = true ∧
    (applyDevMode cfg).codesign_identity = "" ∧
    (∀ (w : World) (fs : FS) (now : Nat) (root : Path),
       ∀ e ∈ (build (applyDevMode cfg) w fs now root).1,
         effProg e ≠ some "codesign") := by
  have hdev : applyDevMode cfg =
      { cfg with skip_backend := true, skip_swift := true, codesign_identity := "" } := by
    simp [applyDevMode, h]
  refine ⟨by rw [hdev], by rw [hdev], by rw [hdev], ?_⟩
  intro w fs now root e he hcontra
  have hblank : blank_after_trim (applyDevMode cfg).codesign_identity = true := by
    rw [hdev]
    rfl
  have hall : ProgsIn (build (applyDevMode cfg) w fs now root).1
      ["npm", "uv", "swift", "rsync", "sips", "iconutil", "touch"] :=
    build_progs (by simp) (by simp) (by simp) (by simp) (by simp) (by simp)
      (by simp) (Or.inl hblank)
  have hmem := hall e he "codesign" hcontra
  simp at hmem

/-- A configuration with dev-mode set and a codesign identity configured. -/
def cfgDevSigned : Config :=
  { cfgBase with dev_mode := true, codesign_identity := "Developer ID Application: X" }

/-- Witness for claim C10 at a concrete dev-mode configuration with a
configured signing identity. -/
theorem dev_mode_skips_and_never_signs_witness :
    (applyDevMode cfgDevSigned).skip_backend = true ∧
    (applyDevMode cfgDevSigned).skip_swift = true ∧
    (applyDevMode cfgDevSigned).codesign_identity = "" ∧
    (∀ e ∈ (build (applyDevMode cfgDevSigned) (wAllOk imgOpaque) fsIconReady 0 ["r"]).1,
       effProg e ≠ some "codesign") := by
  have h := dev_mode_skips_and_never_signs cfgDevSigned rfl
  exact ⟨h.1, h.2.1, h.2.2.1, h.2.2.2 (wAllOk imgOpaque) fsIconReady 0 ["r"]⟩

/-! Lemmas about a fresh (fully cached) run. -/

theorem frontendDepsStep_fresh {cfg : Config} {w : World} {fs : FS} {now : Nat}
    {d s : Path} {lf : Option Path} (h1 : cfg.skip_frontend = false)
    (h2 : need_npm_install fs d s lf = false) (h3 : cfg.force_frontend = false) :
    frontendDepsStep cfg w fs now d s lf = ret () := by
  unfold frontendDepsStep
  simp [h1, h2, h3]

theorem frontendBuildStep_fresh {cfg : Config} {w : World} {fs : FS}
    {d s ef : Path} {ec : String} {lf : Option Path}
    (h1 : cfg.skip_frontend = false)
    (h2 : compute_need_webapp_build fs d s ef ec lf = false)
    (h3 : cfg.force_frontend = false) :
    frontendBuildStep cfg w fs d s ef ec lf = ret none := by
  unfold frontendBuildStep
  simp [h1, h2, h3]

theorem backendDepsStep_fresh {cfg : Config} {w : World} {fs : FS} {now : Nat}
    {bd bds blf : Path} (h1 : cfg.skip_backend = false)
    (h2 : need_uv_sync fs bd bds blf = false) (h3 : cfg.force_backend = false) :
    backendDepsStep cfg w fs now bd bds blf = ret () := by
  unfold backendDepsStep
  simp [h1, h2, h3]

theorem backendBuildStep_fresh {cfg : Config} {w : World} {fs : FS}
    {bd bp bs bds bo wd : Path} (h1 : cfg.skip_backend = false)
    (h2 : compute_need_backend_pyinstaller fs bd bp bs bds = false)
    (h3 : cfg.force_backend = false) :
    backendBuildStep cfg w fs bd bp bs bds bo wd = ret none := by
  unfold backendBuildStep
  simp [h1, h2, h3]

theorem requireToolchain_ok {w : World} (t1 : w.hasCmd "npm" = true)
    (t2 : w.hasCmd "node" = true) (t3 : w.hasCmd "uv" = true)
    (t4 : w.hasCmd "swift" = true) (t5 : w.hasCmd "xcrun" = true)
    (t6 : w.hasCmd "rsync" = true) : requireToolchain w = ([], .ok ()) := by
  unfold requireToolchain require_cmd
  simp [t1, t2, t3, t4, t5, t6, seq, ret]

theorem swift_spawn_mem {cfg : Config} {w : World} {wd wk : Path}
    (hskip : cfg.skip_swift = false) (hdry : cfg.dry_run = false) :
    Eff.spawn (some wd) "swift" ["build", "-c", "release", "--disable-sandbox"]
      [("HOME", pathStr (wk ++ ["swift_home"]))] ∈ (swiftStep cfg w wd wk).1 := by
  unfold swiftStep
  rw [if_neg (by simp [hskip])]
  refine mem_seq_right (a := ()) rfl ?_
  rw [if_neg (by simp [hdry])]
  apply mem_seq_left
  simp [spawn_cmd_with_env, hdry]

theorem swiftStep_snd_ok {cfg : Config} {w : World} {wd wk : Path}
    (hskip : cfg.skip_swift = false) (hdry : cfg.dry_run = false)
    (hsp : w.spawnOk "swift" ["build", "-c", "release", "--disable-sandbox"] = true) :
    (swiftStep cfg w wd wk).2 = .ok (some
      ⟨"swift build",
       ⟨"swift", ["build", "-c", "release", "--disable-sandbox"],
        w.waitOk "swift" ["build", "-c", "release", "--disable-sandbox"]⟩,
       TaskKind.swiftBuild⟩) := by
  unfold swiftStep
  rw [if_neg (by simp [hskip])]
  rw [seq_snd_ok (a := ()) rfl]
  rw [if_neg (by simp [hdry])]
  rw [seq_snd_ok
    (a := (⟨"swift", ["build", "-c", "release", "--disable-sandbox"],
      w.waitOk "swift" ["build", "-c", "release", "--disable-sandbox"]⟩ : Child))
    (by simp [spawn_cmd_with_env, hdry, hsp])]
  rfl

/-- CORRECTED CLAIM C4.  With every stamp fresh (the four staleness
decisions false) and no force, skip, clean or dry-run flag set, a second
full run issues no frontend and no backend build invocation - no npm and
no uv command at all - but the wrapper build command is still issued: the
swift build spawn is unconditional whenever the stage is not skipped
(SwiftPM is left to be incremental on its own), and bundle re-assembly
(the first rsync mirror) still executes. -/
theorem fresh_run_no_frontend_backend_but_swift_and_assembly
    (cfg : Config) (w : World) (fs : FS) (now : Nat) (root : Path)
    (hclean : cfg.clean = false) (hdry : cfg.dry_run = false)
    (hsf : cfg.skip_frontend = false) (hsb : cfg.skip_backend = false)
    (hss : cfg.skip_swift = false) (hff : cfg.force_frontend = false)
    (hfb : cfg.force_backend = false)
    (hn1 : need_npm_install fs (root ++ ["webapp"])
      (root ++ [".mac_build", "stamps", "webapp_deps.stamp"])
      (if fs.isFile (root ++ ["webapp", "package-lock.json"])
       then some (root ++ ["webapp", "package-lock.json"]) else none) = false)
    (hn2 : compute_need_webapp_build fs (root ++ ["webapp"])
      (root ++ [".mac_build", "stamps", "webapp_build.stamp"])
      (root ++ [".mac_build", "stamps", "webapp_build.env"])
      "VITE_API_MODE=real\nVITE_API_BASE_URL=\n"
      (if fs.isFile (root ++ ["webapp", "package-lock.json"])
       then some (root ++ ["webapp", "package-lock.json"]) else none) = false)
    (hn3 : need_uv_sync fs (root ++ ["backend"])
      (root ++ [".mac_build", "stamps", "backend_deps.stamp"])
      (root ++ ["backend", "uv.lock"]) = false)
    (hn4 : compute_need_backend_pyinstaller fs (root ++ ["backend"])
      (root ++ [".mac_build", "backend_dist", "backend_server"])
      (root ++ [".mac_build", "stamps", "backend_build.stamp"])
      (root ++ [".mac_build", "stamps", "backend_deps.stamp"]) = false)
    (t1 : w.hasCmd "npm" = true) (t2 : w.hasCmd "node" = true)
    (t3 : w.hasCmd "uv" = true) (t4 : w.hasCmd "swift" = true)
    (t5 : w.hasCmd "xcrun" = true) (t6 : w.hasCmd "rsync" = true)
    (hsp : w.spawnOk "swift" ["build", "-c", "release", "--disable-sandbox"] = true)
    (hwt : w.waitOk "swift" ["build", "-c", "release", "--disable-sandbox"] = true)
    (hwb : fs.isFile (root ++ ["macos-app", ".build", "release", "MacWrapper"]) = true)
    (hbp : fs.isDir (root ++ [".mac_build", "backend_dist", "backend_server"]) = true) :
    (∀ e ∈ (build cfg w fs now root).1,
       effProg e ≠ some "npm" ∧ effProg e ≠ some "uv") ∧
    Eff.spawn (some (root ++ ["macos-app"])) "swift"
      ["build", "-c", "release", "--disable-sandbox"]
      [("HOME", pathStr (root ++ [".mac_build"] ++ ["swift_home"]))] ∈
      (build cfg w fs now root).1 ∧
    Eff.runSync none "rsync"
      ["-a", "--delete",
       pathStr (root ++ [".mac_build", "backend_dist", "backend_server"]) ++ "/",
       pathStr (root ++ ["dist", cfg.app_name ++ ".app"] ++
         ["Contents", "Resources", "backend_server"]) ++ "/"] [] ∈
      (build cfg w fs now root).1 := by
  have hS : ProgsIn (build cfg w fs now root).1
      ["swift", "rsync", "sips", "iconutil", "touch", "codesign"] := by
    unfold build
    rw [frontendDepsStep_fresh hsf hn1 hff, frontendBuildStep_fresh hsf hn2 hff,
        backendDepsStep_fresh hsb hn3 hfb, backendBuildStep_fresh hsb hn4 hfb]
    refine progsIn_seq (progsIn_of_none ?_) fun _ => ?_
    · rw [requireToolchain_fst]
      intro e he
      cases he
    · refine progsIn_seq (progsIn_of_none ?_) fun _ => ?_
      · intro e he
        show effProg e = none
        rw [emit_fst] at he
        split at he
        · split at he
          · cases he
          · rcases List.mem_cons.mp he with h | h
            · subst h; rfl
            · simp at h; subst h; rfl
        · cases he
      · refine progsIn_seq (progsIn_of_none ?_) fun _ => ?_
        · intro e he
          show effProg e = none
          rw [emit_fst] at he
          split at he
          · simp at he
            rcases he with h | h | h | h <;> (subst h; rfl)
          · cases he
        · refine progsIn_seq progsIn_ret fun _ => ?_
          refine progsIn_seq progsIn_ret fun t1 => ?_
          refine progsIn_seq progsIn_ret fun _ => ?_
          refine progsIn_seq progsIn_ret fun t2 => ?_
          refine progsIn_seq (swiftStep_progs (by simp)) fun t3 => ?_
          split
          · exact progsIn_ret
          · refine progsIn_seq (progsIn_of_none waitTasks_progs_none) fun _ => ?_
            split
            · exact progsIn_failM
            · exact assembleBundle_progs (by simp) (by simp) (by simp) (by simp)
                (Or.inr (by simp))
  refine ⟨?_, ?_, ?_⟩
  · intro e he
    constructor
    · intro hc
      have h2 := hS e he "npm" hc
      simp at h2
    · intro hc
      have h2 := hS e he "uv" hc
      simp at h2
  · unfold build
    rw [frontendDepsStep_fresh hsf hn1 hff, frontendBuildStep_fresh hsf hn2 hff,
        backendDepsStep_fresh hsb hn3 hfb, backendBuildStep_fresh hsb hn4 hfb,
        requireToolchain_ok t1 t2 t3 t4 t5 t6]
    refine mem_seq_right (a := ()) rfl ?_
    refine mem_seq_right (a := ()) rfl ?_
    refine mem_seq_right (a := ()) rfl ?_
    refine mem_seq_right (a := ()) rfl ?_
    refine mem_seq_right (a := none) rfl ?_
    refine mem_seq_right (a := ()) rfl ?_
    refine mem_seq_right (a := none) rfl ?_
    exact mem_seq_left (swift_spawn_mem hss hdry)
  · unfold build
    rw [frontendDepsStep_fresh hsf hn1 hff, frontendBuildStep_fresh hsf hn2 hff,
        backendDepsStep_fresh hsb hn3 hfb, backendBuildStep_fresh hsb hn4 hfb,
        requireToolchain_ok t1 t2 t3 t4 t5 t6]
    refine mem_seq_right (a := ()) rfl ?_
    refine mem_seq_right (a := ()) rfl ?_
    refine mem_seq_right (a := ()) rfl ?_
    refine mem_seq_right (a := ()) rfl ?_
    refine mem_seq_right (a := none) rfl ?_
    refine mem_seq_right (a := ()) rfl ?_
    refine mem_seq_right (a := none) rfl ?_
    refine mem_seq_right (swiftStep_snd_ok hss hdry hsp) ?_
    rw [if_neg (by simp [hdry])]
    refine mem_seq_right (a := ()) ?_ ?_
    · show (waitTasks cfg now _).2 = .ok ()
      simp [waitTasks, hwt, ret]
    · rw [if_neg (by simp [hwb])]
      unfold assembleBundle
      refine mem_seq_right (a := ()) rfl ?_
      refine mem_seq_right (a := ()) rfl ?_
      rw [if_neg (by simp [hbp])]
      refine mem_seq_right (a := ()) rfl ?_
      apply mem_seq_left
      simp [runCmd, hdry]

/-- A fully fresh filesystem: all five stamps exist with mtime 10, the
only watched file (package.json) is older (mtime 5), the recorded
parameter snapshot matches, all output directories and the wrapper binary
exist. -/
def fsFresh : FS :=
  { isFile := fun p =>
      p == ["r", ".mac_build", "stamps", "webapp_deps.stamp"] ||
      p == ["r", ".mac_build", "stamps", "webapp_build.stamp"] ||
      p == ["r", ".mac_build", "stamps", "webapp_build.env"] ||
      p == ["r", ".mac_build", "stamps", "backend_deps.stamp"] ||
      p == ["r", ".mac_build", "stamps", "backend_build.stamp"] ||
      p == ["r", "webapp", "package.json"] ||
      p == ["r", "macos-app", ".build", "release", "MacWrapper"]
    isDir := fun p =>
      p == ["r", "webapp", "node_modules"] || p == ["r", "webapp", "dist"] ||
      p == ["r", "backend", ".venv"] ||
      p == ["r", ".mac_build", "backend_dist", "backend_server"]
    mtime := fun p => if p == ["r", "webapp", "package.json"] then 5 else 10
    content := fun p =>
      if p == ["r", ".mac_build", "stamps", "webapp_build.env"] then
        "VITE_API_MODE=real\nVITE_API_BASE_URL=\n"
      else ""
    size := fun _ => 0
    filesUnder := fun _ => [] }

/-- CORRECTED CLAIM C4 (counterexample).  The claim says a fully fresh
second run issues zero frontend, backend and wrapper build invocations;
at this concrete fresh scenario (all four staleness decisions false, all
flags off) the run still spawns the swift wrapper build. -/
theorem noop_run_still_spawns_swift :
    need_npm_install fsFresh ["r", "webapp"]
      ["r", ".mac_build", "stamps", "webapp_deps.stamp"] none = false ∧
    compute_need_webapp_build fsFresh ["r", "webapp"]
      ["r", ".mac_build", "stamps", "webapp_build.stamp"]
      ["r", ".mac_build", "stamps", "webapp_build.env"]
      "VITE_API_MODE=real\nVITE_API_BASE_URL=\n" none = false ∧
    need_uv_sync fsFresh ["r", "backend"]
      ["r", ".mac_build", "stamps", "backend_deps.stamp"]
      ["r", "backend", "uv.lock"] = false ∧
    compute_need_backend_pyinstaller fsFresh ["r", "backend"]
      ["r", ".mac_build", "backend_dist", "backend_server"]
      ["r", ".mac_build", "stamps", "backend_build.stamp"]
      ["r", ".mac_build", "stamps", "backend_deps.stamp"] = false ∧
    ((build cfgBase (wAllOk imgOpaque) fsFresh 100 ["r"]).1.any fun e =>
       match e with
       | Eff.spawn _ p _ _ => p == "swift"
       | _ => false) = true := by
  decide

/-- Witness for the corrected claim C4 at the concrete fresh scenario:
no npm or uv invocation, the swift spawn present, the backend rsync
mirror present. -/
theorem fresh_run_witness :
    (∀ e ∈ (build cfgBase (wAllOk imgOpaque) fsFresh 100 ["r"]).1,
       effProg e ≠ some "npm" ∧ effProg e ≠ some "uv") ∧
    Eff.spawn (some ["r", "macos-app"]) "swift"
      ["build", "-c", "release", "--disable-sandbox"]
      [("HOME", pathStr ["r", ".mac_build", "swift_home"])] ∈
      (build cfgBase (wAllOk imgOpaque) fsFresh 100 ["r"]).1 ∧
    Eff.runSync none "rsync"
      ["-a", "--delete",
       pathStr ["r", ".mac_build", "backend_dist", "backend_server"] ++ "/",
       pathStr ["r", "dist", "Budget.app", "Contents", "Resources",
         "backend_server"] ++ "/"] [] ∈
      (build cfgBase (wAllOk imgOpaque) fsFresh 100 ["r"]).1 :=
  fresh_run_no_frontend_backend_but_swift_and_assembly cfgBase (wAllOk imgOpaque)
    fsFresh 100 ["r"] rfl rfl rfl rfl rfl rfl rfl (by decide) (by decide)
    (by decide) (by decide) rfl rfl rfl rfl rfl rfl rfl rfl (by decide) (by decide)

/-! Concrete tasks for the coordinator witnesses. -/

/-- A successful backend task whose finalization writes the stamp sA. -/
def taskA : Task :=
  { name := "backend build"
    child := { program := "uv", args := [], exitSuccess := true }
    kind := .backendBuild ["sA"] }

/-- A failing frontend task whose finalization would write eB then sB. -/
def taskB : Task :=
  { name := "frontend build"
    child := { program := "npm", args := [], exitSuccess := false }
    kind := .frontendBuild ["eB"] ["sB"] "x" }

/-- A successful swift task registered after the failing one. -/
def taskC : Task :=
  { name := "swift build"
    child := { program := "swift", args := [], exitSuccess := true }
    kind := .swiftBuild }

/-- Witness for claim C1 at concrete tasks: with a successful task
registered before a failing one, the loop errors with a task-failed
error and the failing task's stamp is never written. -/
theorem finalize_only_after_confirmed_success_witness :
    (∃ n, (waitTasks cfgBase 7 [taskA, taskB]).2 = .error (.taskFailed n)) ∧
    ["sB"] ∉ writePaths (waitTasks cfgBase 7 [taskA, taskB]).1 := by
  have h := (finalize_only_after_confirmed_success cfgBase 7 [taskA, taskB]).2
    taskB (by decide) (by decide)
  exact ⟨h.1, h.2 ["sB"] (by decide) (by decide)⟩

/-- Witness for claim C2 at concrete tasks: A finalizes before B's
failure is surfaced, and the task registered after B is never waited. -/
theorem wait_in_registration_order_witness :
    (waitTasks cfgBase 7 [taskA, taskB, taskC]).1 =
      Eff.wait taskA.name ::
        (finalizeEffects cfgBase 7 taskA.kind ++ [Eff.wait taskB.name]) ∧
    (waitTasks cfgBase 7 [taskA, taskB, taskC]).2 =
      .error (.taskFailed taskB.name) ∧
    Eff.wait taskC.name ∉ (waitTasks cfgBase 7 [taskA, taskB, taskC]).1 := by
  have h := wait_in_registration_order cfgBase 7 taskA taskB [taskC]
    (by decide) (by decide)
  exact ⟨h.1, h.2.1, h.2.2 taskC (by decide) (by decide) (by decide)⟩

/-- Witness for claim C7 at the concrete fresh filesystem: both staleness
oracles return false. -/
theorem fresh_stages_not_stale_witness :
    compute_need_webapp_build fsFresh ["r", "webapp"]
      ["r", ".mac_build", "stamps", "webapp_build.stamp"]
      ["r", ".mac_build", "stamps", "webapp_build.env"]
      "VITE_API_MODE=real\nVITE_API_BASE_URL=\n" none = false ∧
    compute_need_backend_pyinstaller fsFresh ["r", "backend"]
      ["r", ".mac_build", "backend_dist", "backend_server"]
      ["r", ".mac_build", "stamps", "backend_build.stamp"]
      ["r", ".mac_build", "stamps", "backend_deps.stamp"] = false :=
  fresh_stages_not_stale fsFresh ["r", "webapp"]
    ["r", ".mac_build", "stamps", "webapp_build.stamp"]
    ["r", ".mac_build", "stamps", "webapp_build.env"]
    "VITE_API_MODE=real\nVITE_API_BASE_URL=\n" none
    ["r", "backend"] ["r", ".mac_build", "backend_dist", "backend_server"]
    ["r", ".mac_build", "stamps", "backend_build.stamp"]
    ["r", ".mac_build", "stamps", "backend_deps.stamp"]
    (by decide) (by decide) (by decide) (by decide) (by decide)
    (fun l hl => Option.noConfusion hl) (by decide) (by decide) (by decide)
    (by decide) (by decide) (by decide) (by decide) (by decide) (by decide)

/-- Witness for claim C8 at the empty filesystem: with no stamps, both
staleness oracles return true. -/
theorem missing_stamp_is_stale_witness :
    compute_need_webapp_build fsEmpty ["r", "webapp"] ["s1"] ["e1"] "c" none = true ∧
    compute_need_backend_pyinstaller fsEmpty ["r", "backend"] ["p"] ["s2"] ["d"] = true :=
  missing_stamp_is_stale fsEmpty ["r", "webapp"] ["s1"] ["e1"] "c" none
    ["r", "backend"] ["p"] ["s2"] ["d"] (by decide) (by decide)

end BuildTool
